import Mathlib

/-!
Verification of the record-to-profile reconstruction helpers of the
eurec4a_snd repository (file eurec4a_snd/_helpers.py) against its
natural-language specification.

Modelling conventions (shallow embedding):
* Python / json scalar values are modelled by the type PyVal below;
  the json value null and the Python value None are both PyVal.null,
  the IEEE value NaN produced by np.nan padding is the explicit marker
  PyVal.nan, and floating point numbers are modelled by exact rationals.
* numpy float arrays appearing after the list-to-array conversion are
  modelled as List (Option Rat), where none stands for NaN.
* Python exceptions are modelled by an Except monad with the error
  type PyErr; a KeyError raised by a failed dict lookup is
  PyErr.keyError, and the two library specific exception classes
  UnitChangedError and UnexpectedUnit are PyErr.unitChanged and
  PyErr.unexpectedUnit.
* Python dicts are modelled as association lists whose insert
  operation overwrites the value of an existing key in place.
-/

/-! ## Sorting: nan_argsort and sort_sounding_by_time

nan_argsort copies the array, overwrites every NaN entry with
-inf * direction and returns np.argsort of the result.  Values are
Option Rat (none = NaN); the value -inf * direction is bottom of
WithBot (WithTop Rat) when the direction is positive (+1, ascending
sounding) and top when it is negative (-1, descending / dropsonde),
matching -np.inf * direction for the two directions the pipeline
produces.  np.argsort returns a permutation of the indices that sorts
the keyed array; it is modelled canonically as the stable sort of the
indices, i.e. indices sorted lexicographically by (key, index). -/

/-- A Python scalar value as it occurs in the flattened bufr json:
a number (floats modelled as exact rationals), a string, the value
None (also the json null), or the float NaN inserted as the missing
value marker np.nan. -/
inductive PyVal where
  | num (q : ℚ)
  | str (s : String)
  | null
  | nan
  deriving DecidableEq, Repr

/-- Errors raised by the helper functions: Python KeyError from a dict
lookup, TypeError, NameError (unbound local variable), the
NotImplementedError of get_sounding_direction, and the two exception
classes UnitChangedError and UnexpectedUnit defined in _helpers.py.
UnitChangedError carries the previously stored unit and the newly seen
unit; UnexpectedUnit carries the expected bufr unit named in the
message and the actually recorded unit. -/
inductive PyErr where
  | keyError
  | typeError
  | nameError
  | notImplemented
  | unitChanged (old new : PyVal)
  | unexpectedUnit (expected actual : String)
  deriving DecidableEq, Repr

/-- A flattened json object: an ordered association list from
synthetic keys to scalar values (a Python dict). -/
def JsonFlat := List (String × PyVal)

/-- Dict lookup that raises KeyError when the key is absent, as
Python subscripting json_flat[k] does. -/
def lookupE (json : JsonFlat) (k : String) : Except PyErr PyVal :=
  match List.lookup k json with
  | some v => .ok v
  | none => .error .keyError

/-- Dict assignment out[k] = v: overwrite the value in place when the
key exists, append the pair otherwise (Python dicts keep the original
insertion position of an updated key). -/
def dictInsert (out : List (String × PyVal)) (k : String) (v : PyVal) :
    List (String × PyVal) :=
  match out with
  | [] => [(k, v)]
  | (k', v') :: rest =>
      if k' = k then (k', v) :: rest else (k', v') :: dictInsert rest k v

/-- Sort key domain: rationals extended with a bottom (-inf) and a top
(+inf) element. -/
abbrev SortKey := WithBot (WithTop ℚ)

/-- Sort key of one entry: NaN (none) becomes -inf * direction, i.e.
bottom for an ascending (+1) sounding and top for a descending (-1)
sounding; a finite time value is used as is. -/
def keyOf (direction : ℤ) (x : Option ℚ) : SortKey :=
  match x with
  | none => if 0 < direction then (⊥ : SortKey) else ((⊤ : WithTop ℚ) : SortKey)
  | some q => ((q : WithTop ℚ) : SortKey)

/-- Model of nan_argsort: indices 0..n-1 sorted stably by the key of
the entry they point at (ties between equal keys keep index order).
np.argsort with its default kind quicksort guarantees only SOME
permutation arranging the keys in nondecreasing order — it is not
stable on equal keys (see IsArgsortResult for that weaker contract);
this model picks the stable representative of the admissible results,
which is sound for properties that are independent of the order
within tie blocks (such as where the missing-time indices are placed)
but stronger than the source for stability-dependent properties. -/
def nan_argsort (array : List (Option ℚ)) (direction : ℤ) : List ℕ :=
  (((List.range array.length).map
      (fun i => toLex (keyOf direction (array.getD i none), i))).insertionSort
        (· ≤ ·)).map (fun p => (ofLex p).2)

/-- Fancy indexing arr[sorter]: the list of entries of xs at the
positions listed by the sorter (all in bounds in the pipeline, where
every series has the length of the time series). -/
def applySorter (sorter : List ℕ) (xs : List (Option ℚ)) : List (Option ℚ) :=
  sorter.map (fun i => xs.getD i none)

/-- Statement shape for C2: every output position pointing at a
missing (NaN) time entry comes after every position pointing at a
non-missing one, i.e. the missing indices are grouped at the end of
the permutation. -/
abbrev missingAtEnd (array : List (Option ℚ)) (out : List ℕ) : Prop :=
  out.Pairwise fun i j => array.getD i none = none → array.getD j none = none

/-- Statement shape for C2: the missing indices are grouped at the
start of the permutation. -/
abbrev missingAtStart (array : List (Option ℚ)) (out : List ℕ) : Prop :=
  out.Pairwise fun i j => array.getD j none = none → array.getD i none = none

/-- Statement shape for C2: among positions pointing at non-missing
entries, the output permutation lists them in nondecreasing order of
their numeric value. -/
abbrev valuesSorted (array : List (Option ℚ)) (out : List ℕ) : Prop :=
  out.Pairwise fun i j => ∀ a b,
    array.getD i none = some a → array.getD j none = some b → a ≤ b

/-- The sounding aggregate as it exists at the reordering stage of the
pipeline: the twelve per-sample series that sort_sounding_by_time and
exclude_1000hPa_gpm permute and filter (numpy float arrays, none =
NaN), together with the sounding direction (+1 ascending,
-1 descending). -/
structure SoundingArrays where
  time : List (Option ℚ)
  ascentrate : List (Option ℚ)
  gpm : List (Option ℚ)
  pressure : List (Option ℚ)
  temperature : List (Option ℚ)
  relativehumidity : List (Option ℚ)
  dewpoint : List (Option ℚ)
  mixingratio : List (Option ℚ)
  windspeed : List (Option ℚ)
  winddirection : List (Option ℚ)
  latitude : List (Option ℚ)
  longitude : List (Option ℚ)
  direction : ℤ
  deriving DecidableEq, Repr

/-- The guarantee np.argsort gives for ANY sort kind, in particular
for the default (unstable) quicksort the source relies on: the result
is some permutation of the index range that arranges the keyed
entries in nondecreasing key order.  Nothing constrains the relative
order of indices whose keys are equal (a tie block of equal time
values, or several missing time values all keyed to the same
infinity): any permutation within a tie block is an admissible
result. -/
def IsArgsortResult (array : List (Option ℚ)) (direction : ℤ)
    (p : List ℕ) : Prop :=
  p.Perm (List.range array.length) ∧
  p.Pairwise (fun i j => keyOf direction (array.getD i none) ≤
    keyOf direction (array.getD j none))

/-- The body of sort_sounding_by_time for a given sorting
permutation: apply it to all twelve series. -/
def sort_sounding_with (sorter : List ℕ) (s : SoundingArrays) :
    SoundingArrays :=
  { s with
    time := applySorter sorter s.time
    ascentrate := applySorter sorter s.ascentrate
    gpm := applySorter sorter s.gpm
    pressure := applySorter sorter s.pressure
    temperature := applySorter sorter s.temperature
    relativehumidity := applySorter sorter s.relativehumidity
    dewpoint := applySorter sorter s.dewpoint
    mixingratio := applySorter sorter s.mixingratio
    windspeed := applySorter sorter s.windspeed
    winddirection := applySorter sorter s.winddirection
    latitude := applySorter sorter s.latitude
    longitude := applySorter sorter s.longitude }

/-- Model of sort_sounding_by_time: compute the sorting permutation
from the time series with nan_argsort and apply it to all twelve
series. -/
def sort_sounding_by_time (s : SoundingArrays) : SoundingArrays :=
  sort_sounding_with (nan_argsort s.time s.direction) s

/-- A sounding that is already sorted by time but whose time series
is one tie block (two equal time values), with pairwise distinct
entries in every other series. -/
def c9Sounding : SoundingArrays :=
  SoundingArrays.mk [some 0, some 0] [some 1, some 2] [some 3, some 4]
    [some 5, some 6] [some 7, some 8] [some 9, some 10] [some 11, some 12]
    [some 13, some 14] [some 15, some 16] [some 17, some 18]
    [some 19, some 20] [some 21, some 22] 1

/-- Boolean-mask indexing arr[mask]: keep the entries of xs whose
mask position is true, in order (numpy boolean fancy indexing). -/
def boolMask (mask : List Bool) (xs : List (Option ℚ)) : List (Option ℚ) :=
  ((mask.zip xs).filter (fun p => p.1)).map (fun p => p.2)

/-- Model of exclude_1000hPa_gpm: build the mask of positions whose
time entry is not NaN and filter all twelve series with it. -/
def exclude_1000hPa_gpm (s : SoundingArrays) : SoundingArrays :=
  let nan_mask := s.time.map Option.isSome
  { s with
    time := boolMask nan_mask s.time
    ascentrate := boolMask nan_mask s.ascentrate
    gpm := boolMask nan_mask s.gpm
    pressure := boolMask nan_mask s.pressure
    temperature := boolMask nan_mask s.temperature
    relativehumidity := boolMask nan_mask s.relativehumidity
    dewpoint := boolMask nan_mask s.dewpoint
    mixingratio := boolMask nan_mask s.mixingratio
    windspeed := boolMask nan_mask s.windspeed
    winddirection := boolMask nan_mask s.winddirection
    latitude := boolMask nan_mask s.latitude
    longitude := boolMask nan_mask s.longitude }

/-- Model of get_sounding_direction: maps the bufr message format
identifier to +1 (upward, 309057) or -1 (downward, 309053 dropsonde
and 309056 radiosonde descent), raising NotImplementedError for any
other identifier.  The Python source compares str(bufr_msg) with the
three string literals, which on the integer identifiers the pipeline
passes coincides with integer equality. -/
def get_sounding_direction (bufr_msg : ℤ) : Except PyErr ℤ :=
  if bufr_msg = 309053 then .ok (-1)
  else if bufr_msg = 309056 then .ok (-1)
  else if bufr_msg = 309057 then .ok 1
  else .error .notImplemented

/-- The sounding aggregate exactly as initialized by the Sounding
class inside convert_json_to_arrays: one measurement series plus one
unit label per tracked variable, the launch position, the composed
start time (modelled as the six date/time component values; calendar
validation by dt.datetime is elided) and the metadata dict.  Unset
attributes initialized to Python None are PyVal.null. -/
structure Sounding where
  station_lat : PyVal := .null
  station_lon : PyVal := .null
  sounding_start_time : Option (PyVal × PyVal × PyVal × PyVal × PyVal × PyVal) := none
  time : List PyVal := []
  time_unit : PyVal := .null
  pressure : List PyVal := []
  pressure_unit : PyVal := .null
  temperature : List PyVal := []
  temperature_unit : PyVal := .null
  dewpoint : List PyVal := []
  dewpoint_unit : PyVal := .null
  windspeed : List PyVal := []
  windspeed_unit : PyVal := .null
  winddirection : List PyVal := []
  winddirection_unit : PyVal := .null
  gpm : List PyVal := []
  gpm_unit : PyVal := .null
  displacement_lat : List PyVal := []
  displacement_lat_unit : PyVal := .null
  displacement_lon : List PyVal := []
  displacement_lon_unit : PyVal := .null
  meta_data : List (String × PyVal) := []
  deriving DecidableEq, Repr

/-- Helper of replace_missing_data: replace None with NaN, leave every
other entry unchanged (Python entry == None is true exactly for
None). -/
def replace_none (entry : PyVal) : PyVal :=
  if entry = .null then .nan else entry

/-- Model of replace_missing_data: map replace_none over the nine
measurement series named in its variables list. -/
def replace_missing_data (sounding : Sounding) : Sounding :=
  { sounding with
    displacement_lat := sounding.displacement_lat.map replace_none
    displacement_lon := sounding.displacement_lon.map replace_none
    pressure := sounding.pressure.map replace_none
    windspeed := sounding.windspeed.map replace_none
    winddirection := sounding.winddirection.map replace_none
    temperature := sounding.temperature.map replace_none
    dewpoint := sounding.dewpoint.map replace_none
    gpm := sounding.gpm.map replace_none
    time := sounding.time.map replace_none }

/-- Statement shape for C10: the new series has the same length as the
old one, every None entry of the old series became NaN, and every
other entry is unchanged. -/
abbrev noneReplaced (old new : List PyVal) : Prop :=
  new.length = old.length ∧
  ∀ i : ℕ, i < old.length →
    (old.getD i .null = .null → new.getD i .null = .nan) ∧
    (old.getD i .null ≠ .null → new.getD i .null = old.getD i .null)

/-- Absolute value on the rationals (np.abs), spelled out so that
concrete evaluations reduce in the kernel. -/
def ratAbs (q : ℚ) : ℚ :=
  if q < 0 then -q else q

/-- Absolute first differences of the time series, np.abs(np.diff(t)).
The source first applies np.ma.compressed, which on the plain
(unmasked) float arrays produced by convert_list_to_array returns the
array unchanged, so it is the identity here; the time argument models
the numeric entries of that array. -/
def timeDiffs (time : List ℚ) : List ℚ :=
  (time.zip time.tail).map (fun p => ratAbs (p.2 - p.1))

/-- Conversion astype(int): C truncation toward zero, which on the
nonnegative absolute differences is the floor. -/
def toIntTrunc (q : ℚ) : ℕ :=
  (⌊q⌋).toNat

/-- Model of np.bincount: entry v of the result counts the
occurrences of the value v in the input, for v up to the maximum of
the input; the empty input gives the empty array. -/
def bincount (l : List ℕ) : List ℕ :=
  if l = [] then []
  else (List.range (l.foldr max 0 + 1)).map (fun v => l.count v)

/-- Model of np.argmax: index of the first occurrence of the maximal
entry; raises (none) on an empty array. -/
def argmax (l : List ℕ) : Option ℕ :=
  if l = [] then none else some (l.indexOf (l.foldr max 0))

/-- Model of calc_temporal_resolution: bucket the integer-truncated
absolute time differences with bincount, take the argmax of the
counts, and use that number as an INDEX into the array of (float)
time differences; none models a raised IndexError (argmax exceeding
the length of the difference array) or ValueError (empty input to
argmax). -/
def calc_temporal_resolution (time : List ℚ) : Option ℚ :=
  let time_differences := timeDiffs time
  let time_differences_counts := bincount (time_differences.map toIntTrunc)
  match argmax time_differences_counts with
  | none => none
  | some i => time_differences[i]?

/-- Conversion registered as K-->C and K-->degC: subtract 273.15,
applied elementwise to the numpy array (NaN propagates; other
non-numeric entries cannot occur in the float arrays this stage
receives). -/
def kelvin_to_celsius (kelvin : PyVal) : PyVal :=
  match kelvin with
  | .num q => .num (q - 273.15)
  | x => x

/-- Conversion registered as Pa-->hPa: divide by 100, elementwise. -/
def pascal_to_hectoPascal (pascal : PyVal) : PyVal :=
  match pascal with
  | .num q => .num (q / 100)
  | x => x

/-- The converter registry: keys are source-->target unit strings. -/
def converter_dict (k : String) : Option (PyVal → PyVal) :=
  if k = "K-->C" then some kelvin_to_celsius
  else if k = "K-->degC" then some kelvin_to_celsius
  else if k = "Pa-->hPa" then some pascal_to_hectoPascal
  else none

/-- One iteration of the expected_unit_check loop for one variable:
if the recorded unit label differs from the expected output unit, look
up a converter for the pair (recorded unit)-->(expected output unit),
apply it elementwise and set the unit label to the target; a missing
converter raises UnexpectedUnit naming the expected bufr unit and the
recorded unit; a non-string unit label makes the string join raise
TypeError. -/
def checkVar (series : List PyVal) (unit : PyVal)
    (expected_bufr expected_output : String) :
    Except PyErr (List PyVal × PyVal) :=
  if unit = .str expected_output then .ok (series, unit)
  else
    match unit with
    | .str u =>
        match converter_dict (u ++ "-->" ++ expected_output) with
        | some f => .ok (series.map f, .str expected_output)
        | none => .error (.unexpectedUnit expected_bufr u)
    | _ => .error .typeError

/-- Model of expected_unit_check: run the per-variable check over the
nine tracked variables in the order of its variables list, with the
expected bufr units and expected output units of the source. -/
def expected_unit_check (sounding : Sounding) : Except PyErr Sounding := do
  let dlat ← checkVar sounding.displacement_lat sounding.displacement_lat_unit
    "deg" "deg"
  let dlon ← checkVar sounding.displacement_lon sounding.displacement_lon_unit
    "deg" "deg"
  let pres ← checkVar sounding.pressure sounding.pressure_unit "Pa" "hPa"
  let wspd ← checkVar sounding.windspeed sounding.windspeed_unit "m/s" "m/s"
  let wdir ← checkVar sounding.winddirection sounding.winddirection_unit
    "deg" "deg"
  let temp ← checkVar sounding.temperature sounding.temperature_unit "K" "degC"
  let dewp ← checkVar sounding.dewpoint sounding.dewpoint_unit "K" "degC"
  let geop ← checkVar sounding.gpm sounding.gpm_unit "gpm" "gpm"
  let tim ← checkVar sounding.time sounding.time_unit "s" "s"
  return { sounding with
    displacement_lat := dlat.1, displacement_lat_unit := dlat.2
    displacement_lon := dlon.1, displacement_lon_unit := dlon.2
    pressure := pres.1, pressure_unit := pres.2
    windspeed := wspd.1, windspeed_unit := wspd.2
    winddirection := wdir.1, winddirection_unit := wdir.2
    temperature := temp.1, temperature_unit := temp.2
    dewpoint := dewp.1, dewpoint_unit := dewp.2
    gpm := geop.1, gpm_unit := geop.2
    time := tim.1, time_unit := tim.2 }

/-- Concrete sounding for the C6 scenario: temperature and dewpoint
recorded in K with samples 300.0 and 290.0, all other unit labels
already at their expected output units. -/
def c6Sounding : Sounding :=
  { temperature := [.num 300, .num 290], temperature_unit := .str "K"
    dewpoint := [.num 300, .num 290], dewpoint_unit := .str "K"
    displacement_lat_unit := .str "deg", displacement_lon_unit := .str "deg"
    pressure_unit := .str "hPa", windspeed_unit := .str "m/s"
    winddirection_unit := .str "deg", gpm_unit := .str "gpm"
    time_unit := .str "s" }

/-- Result of normalizing c6Sounding. -/
def c6Converted : Sounding :=
  { c6Sounding with
    temperature := [PyVal.num 300, PyVal.num 290].map kelvin_to_celsius
    temperature_unit := .str "degC"
    dewpoint := [PyVal.num 300, PyVal.num 290].map kelvin_to_celsius
    dewpoint_unit := .str "degC" }

/-- Little-endian decimal digits with explicit fuel (the number itself
suffices), so that concrete keys evaluate by kernel reduction. -/
def digitsRevFuel : ℕ → ℕ → List ℕ
  | 0, _ => []
  | _ + 1, 0 => []
  | fuel + 1, n + 1 => (n + 1) % 10 :: digitsRevFuel fuel ((n + 1) / 10)

/-- Little-endian decimal digits of a natural number ([] for 0). -/
def digitsRev (r : ℕ) : List ℕ :=
  digitsRevFuel r r

/-- Big-endian decimal digits of a natural number ([] for 0). -/
def natDigits (r : ℕ) : List ℕ :=
  (digitsRev r).reverse

/-- Digit list of the zero-padded counter rendering used by the
synthetic key format string {:07g}: for counters below 10^6 — the g
presentation switches to exponent notation at 10^6 — this is the
7-digit zero-padded decimal form modelled here, extended for larger
counters by the plain decimal form. -/
def pad7digits (r : ℕ) : List ℕ :=
  List.replicate (7 - (natDigits r).length) 0 ++ natDigits r

/-- The zero-padded counter as a string. -/
def pad7 (r : ℕ) : String :=
  String.mk ((pad7digits r).map Nat.digitChar)

/-- The synthetic key of a leaf: zero-padded occurrence counter,
underscore, original field name. -/
def fmtKey (r : ℕ) (name : String) : String :=
  pad7 r ++ "_" ++ name

/-- A nested json structure as consumed by flatten_json: scalar
leaves, ordered mappings (Python dicts preserve insertion order) and
ordered sequences. -/
inductive J where
  | val (v : PyVal)
  | obj (fields : List (String × J))
  | arr (elems : List J)

mutual

/-- Model of the recursive helper flatten inside flatten_json.  The
global counter r and the closed-over dict out are threaded as explicit
state.  A leaf stores its value under the key fmtKey r name; a dict
recurses into each value with that field name; a sequence recurses
into each element with the empty default name and increments the
counter once after each element (the counter is NOT incremented for
leaves reached inside dicts). -/
def flattenAux : J → String → ℕ → List (String × PyVal) →
    ℕ × List (String × PyVal)
  | .val v, name, r, out => (r, dictInsert out (fmtKey r name) v)
  | .obj fields, _, r, out => flattenObj fields r out
  | .arr elems, _, r, out => flattenArr elems r out

/-- The dict loop of flatten: recurse into each value with its key as
the name. -/
def flattenObj : List (String × J) → ℕ → List (String × PyVal) →
    ℕ × List (String × PyVal)
  | [], r, out => (r, out)
  | (a, x) :: rest, r, out =>
      let p := flattenAux x a r out
      flattenObj rest p.1 p.2

/-- The list loop of flatten: recurse into each element with the
default empty name, incrementing the counter after each element. -/
def flattenArr : List J → ℕ → List (String × PyVal) →
    ℕ × List (String × PyVal)
  | [], r, out => (r, out)
  | x :: rest, r, out =>
      let p := flattenAux x "" r out
      flattenArr rest (p.1 + 1) p.2

end

/-- Model of flatten_json: run flatten on the structure with the empty
default name, the counter starting at 0 and an empty output dict. -/
def flatten_json (y : J) : List (String × PyVal) :=
  (flattenAux y "" 0 []).2

/-- Expected flattening of a list of flat records: record number k
(zero-based, counting previously completed list elements) contributes
one entry per field, keyed by fmtKey k fieldname. -/
def flatRecords : List (List (String × PyVal)) → ℕ → List (String × PyVal)
  | [], _ => []
  | rec :: rest, r =>
      rec.map (fun p => (fmtKey r p.1, p.2)) ++ flatRecords rest (r + 1)

/-- A list of flat records as a nested json structure: a sequence of
mappings whose values are scalar leaves (the shape of the bufr json
the pipeline consumes). -/
def recordsJson (records : List (List (String × PyVal))) : J :=
  .arr (records.map (fun rec => J.obj (rec.map (fun p => (p.1, J.val p.2)))))

/-- One padding step of _ensure_measurement_integrity: append one NaN
when the series is still shorter than the time series (the source
writes if len(self.time) > len(series): series.append(np.nan); the
time length is unchanged throughout the function and each branch
touches a distinct series, so the seven sequential ifs act
independently). -/
def padSeries (time : List PyVal) (xs : List PyVal) : List PyVal :=
  if xs.length < time.length then xs ++ [.nan] else xs

/-- Model of _ensure_measurement_integrity: pad temperature, gpm,
dewpoint, pressure, windspeed, winddirection and displacement_lat up
to the current time length.  Note that displacement_lon is NOT in the
list of padded series in the source. -/
def _ensure_measurement_integrity (s : Sounding) : Sounding :=
  { s with
    temperature := padSeries s.time s.temperature
    gpm := padSeries s.time s.gpm
    dewpoint := padSeries s.time s.dewpoint
    pressure := padSeries s.time s.pressure
    windspeed := padSeries s.time s.windspeed
    winddirection := padSeries s.time s.winddirection
    displacement_lat := padSeries s.time s.displacement_lat }

/-- Shared body of the nine tracked-variable branches of the scan:
append the _value entry to the series; then, if no unit is stored yet
(the attribute is still None), store the _units entry, else raise
UnitChangedError when the stored unit differs from the _units entry.
Missing _value or _units entries raise KeyError as Python dict
subscripting does. -/
def appendVar (json : JsonFlat) (key_key : String) (series : List PyVal)
    (unit : PyVal) : Except PyErr (List PyVal × PyVal) :=
  match List.lookup (key_key ++ "_value") json with
  | none => .error .keyError
  | some v =>
      match List.lookup (key_key ++ "_units") json with
      | none => .error .keyError
      | some u =>
          if unit = .null then .ok (series ++ [v], u)
          else if unit = u then .ok (series ++ [v], unit)
          else .error (.unitChanged unit u)

/-- Python str() rendering of a scalar, used only to build the
sonde_frequency metadata string; the decimal rendering of numbers is
abstracted by the rational repr. -/
def pyStr (v : PyVal) : String :=
  match v with
  | .str s => s
  | .num q => toString q
  | .null => "None"
  | .nan => "nan"

/-- Scan state of convert_json_to_arrays: the sounding under
construction plus the six local date/time component variables of the
loop (Python locals, unbound until their field is seen). -/
structure ScanState where
  s : Sounding := {}
  year : Option PyVal := none
  month : Option PyVal := none
  day : Option PyVal := none
  hour : Option PyVal := none
  minute : Option PyVal := none
  second : Option PyVal := none
  deriving DecidableEq, Repr

/-- One iteration of the key_keys loop of convert_json_to_arrays:
look up the decoded field name under key_key + "_key" (KeyError when
absent) and dispatch on it exactly as the if/elif chain of the source
does; an unrecognized field name leaves the state unchanged. -/
def stepKey (json : JsonFlat) (key_key : String) (st : ScanState) :
    Except PyErr ScanState :=
  match List.lookup (key_key ++ "_key") json with
  | none => .error .keyError
  | some kv =>
      if kv = .str "latitude" then
        match List.lookup (key_key ++ "_value") json with
        | none => .error .keyError
        | some v => .ok { st with s := { st.s with station_lat := v } }
      else if kv = .str "longitude" then
        match List.lookup (key_key ++ "_value") json with
        | none => .error .keyError
        | some v => .ok { st with s := { st.s with station_lon := v } }
      else if kv = .str "pressure" then
        match appendVar json key_key st.s.pressure st.s.pressure_unit with
        | .error e => .error e
        | .ok p => .ok { st with s :=
            { st.s with pressure := p.1, pressure_unit := p.2 } }
      else if kv = .str "windSpeed" then
        match appendVar json key_key st.s.windspeed st.s.windspeed_unit with
        | .error e => .error e
        | .ok p => .ok { st with s :=
            { st.s with windspeed := p.1, windspeed_unit := p.2 } }
      else if kv = .str "windDirection" then
        match appendVar json key_key st.s.winddirection
            st.s.winddirection_unit with
        | .error e => .error e
        | .ok p => .ok { st with s :=
            { st.s with winddirection := p.1, winddirection_unit := p.2 } }
      else if kv = .str "nonCoordinateGeopotentialHeight" then
        match appendVar json key_key st.s.gpm st.s.gpm_unit with
        | .error e => .error e
        | .ok p => .ok { st with s := { st.s with gpm := p.1, gpm_unit := p.2 } }
      else if kv = .str "airTemperature" then
        match appendVar json key_key st.s.temperature
            st.s.temperature_unit with
        | .error e => .error e
        | .ok p => .ok { st with s :=
            { st.s with temperature := p.1, temperature_unit := p.2 } }
      else if kv = .str "dewpointTemperature" then
        match appendVar json key_key st.s.dewpoint st.s.dewpoint_unit with
        | .error e => .error e
        | .ok p => .ok { st with s :=
            { st.s with dewpoint := p.1, dewpoint_unit := p.2 } }
      else if kv = .str "latitudeDisplacement" then
        match appendVar json key_key st.s.displacement_lat
            st.s.displacement_lat_unit with
        | .error e => .error e
        | .ok p => .ok { st with s :=
            { st.s with displacement_lat := p.1
                        displacement_lat_unit := p.2 } }
      else if kv = .str "longitudeDisplacement" then
        match appendVar json key_key st.s.displacement_lon
            st.s.displacement_lon_unit with
        | .error e => .error e
        | .ok p => .ok { st with s :=
            { st.s with displacement_lon := p.1
                        displacement_lon_unit := p.2 } }
      else if kv = .str "timePeriod" then
        let s1 := _ensure_measurement_integrity st.s
        match appendVar json key_key s1.time s1.time_unit with
        | .error e => .error e
        | .ok p => .ok { st with s :=
            { s1 with time := p.1, time_unit := p.2 } }
      else if kv = .str "year" then
        match List.lookup (key_key ++ "_value") json with
        | none => .error .keyError
        | some v => .ok { st with year := some v }
      else if kv = .str "month" then
        match List.lookup (key_key ++ "_value") json with
        | none => .error .keyError
        | some v => .ok { st with month := some v }
      else if kv = .str "day" then
        match List.lookup (key_key ++ "_value") json with
        | none => .error .keyError
        | some v => .ok { st with day := some v }
      else if kv = .str "hour" then
        match List.lookup (key_key ++ "_value") json with
        | none => .error .keyError
        | some v => .ok { st with hour := some v }
      else if kv = .str "minute" then
        match List.lookup (key_key ++ "_value") json with
        | none => .error .keyError
        | some v => .ok { st with minute := some v }
      else if kv = .str "second" then
        match List.lookup (key_key ++ "_value") json with
        | none => .error .keyError
        | some v => .ok { st with second := some v }
      else if kv = .str "radiosondeSerialNumber" then
        match List.lookup (key_key ++ "_value") json with
        | none => .error .keyError
        | some v => .ok { st with s := { st.s with
            meta_data := dictInsert st.s.meta_data "sonde_serial_number" v } }
      else if kv = .str "softwareVersionNumber" then
        match List.lookup (key_key ++ "_value") json with
        | none => .error .keyError
        | some v => .ok { st with s := { st.s with
            meta_data := dictInsert st.s.meta_data "softwareVersionNumber" v } }
      else if kv = .str "radiosondeType" then
        match List.lookup (key_key ++ "_value") json with
        | none => .error .keyError
        | some v => .ok { st with s := { st.s with
            meta_data := dictInsert st.s.meta_data "radiosondeType" v } }
      else if kv = .str "unexpandedDescriptors" then
        match List.lookup (key_key ++ "_value") json with
        | some v => .ok { st with s := { st.s with
            meta_data := dictInsert st.s.meta_data "bufr_msg" v } }
        | none => .ok { st with s := { st.s with
            meta_data := dictInsert st.s.meta_data "bufr_msg" (.num 309053) } }
      else if kv = .str "radiosondeOperatingFrequency" then
        match List.lookup (key_key ++ "_value") json with
        | none => .error .keyError
        | some v =>
            match List.lookup (key_key ++ "_units") json with
            | none => .error .keyError
            | some (.str su) => .ok { st with s := { st.s with
                meta_data := dictInsert st.s.meta_data "sonde_frequency"
                  (.str (pyStr v ++ su)) } }
            | some _ => .error .typeError
      else .ok st

/-- The key_keys loop: fold stepKey over the candidate keys, aborting
on the first raised exception. -/
def scanKeys (json : JsonFlat) : List String → ScanState →
    Except PyErr ScanState
  | [], st => .ok st
  | kk :: rest, st =>
      match stepKey json kk st with
      | .error e => .error e
      | .ok st2 => scanKeys json rest st2

/-- Model of convert_json_to_arrays: run the scan from the freshly
initialized state, run the completeness correction once more
unconditionally, then compose the start time from the six date/time
components (an unbound component raises NameError; calendar range
validation of dt.datetime is elided, which only affects which
non-UnitChangedError exception an invalid date raises). -/
def convert_json_to_arrays (json_flat : JsonFlat) (key_keys : List String) :
    Except PyErr Sounding :=
  match scanKeys json_flat key_keys {} with
  | .error e => .error e
  | .ok st =>
      let s := _ensure_measurement_integrity st.s
      match st.year, st.month, st.day, st.hour, st.minute, st.second with
      | some y, some mo, some d, some h, some mi, some se =>
          .ok { s with sounding_start_time := some (y, mo, d, h, mi, se) }
      | _, _, _, _, _, _ => .error .nameError

/-- Flattened record for the C1 failing input: the six date/time
subfields followed by a single complete timePeriod triple. -/
def c1Json : JsonFlat :=
  [("a_key", .str "year"), ("a_value", .num 2020),
   ("b_key", .str "month"), ("b_value", .num 1),
   ("c_key", .str "day"), ("c_value", .num 31),
   ("d_key", .str "hour"), ("d_value", .num 12),
   ("e_key", .str "minute"), ("e_value", .num 0),
   ("f_key", .str "second"), ("f_value", .num 0),
   ("g_key", .str "timePeriod"), ("g_value", .num 0), ("g_units", .str "s")]

/-- The key key prefixes of c1Json. -/
def c1Keys : List String := ["a", "b", "c", "d", "e", "f", "g"]

/-- The decoded field names of the nine tracked physical variables
whose scan branches perform the unit consistency check. -/
def trackedNames : List String :=
  ["pressure", "windSpeed", "windDirection",
   "nonCoordinateGeopotentialHeight", "airTemperature",
   "dewpointTemperature", "latitudeDisplacement",
   "longitudeDisplacement", "timePeriod"]

/-- The units recorded for the occurrences of the variable with the
given decoded field name among the candidate keys, in scan order. -/
def unitsSeen (json : JsonFlat) (key_keys : List String) (name : String) :
    List PyVal :=
  key_keys.filterMap (fun kk =>
    if List.lookup (kk ++ "_key") json = some (.str name)
    then List.lookup (kk ++ "_units") json else none)

/-- A unit history is constant when every recorded unit equals the
first recorded one. -/
abbrev constUnits (l : List PyVal) : Prop := ∀ u ∈ l, l.head? = some u

/-- Whether an optional json entry is present and a string. -/
def isStrOpt : Option PyVal → Bool
  | some (.str _) => true
  | _ => false

/-- Well-formedness of the flattened input: every candidate key has
its _key, _value and _units entries present, and the recorded unit is
a string (as produced by the bufr json dump). -/
abbrev WFkeys (json : JsonFlat) (key_keys : List String) : Prop :=
  ∀ kk ∈ key_keys,
    (List.lookup (kk ++ "_key") json).isSome = true ∧
    (List.lookup (kk ++ "_value") json).isSome = true ∧
    isStrOpt (List.lookup (kk ++ "_units") json) = true

/-- Invariant relating one stored unit attribute to the history of
units recorded so far for its variable: the attribute holds the first
recorded unit (None before the first occurrence) and the history is
constant. -/
def unitInv (stored : PyVal) (l : List PyVal) : Prop :=
  stored = (l.head?).getD .null ∧ constUnits l

/-- Scan invariant: after processing the keys in procd without
raising, every tracked variable's stored unit attribute satisfies
unitInv against its unit history. -/
def ScanInv (json : JsonFlat) (procd : List String) (st : ScanState) : Prop :=
  unitInv st.s.pressure_unit (unitsSeen json procd "pressure") ∧
  unitInv st.s.windspeed_unit (unitsSeen json procd "windSpeed") ∧
  unitInv st.s.winddirection_unit (unitsSeen json procd "windDirection") ∧
  unitInv st.s.gpm_unit
    (unitsSeen json procd "nonCoordinateGeopotentialHeight") ∧
  unitInv st.s.temperature_unit (unitsSeen json procd "airTemperature") ∧
  unitInv st.s.dewpoint_unit (unitsSeen json procd "dewpointTemperature") ∧
  unitInv st.s.displacement_lat_unit
    (unitsSeen json procd "latitudeDisplacement") ∧
  unitInv st.s.displacement_lon_unit
    (unitsSeen json procd "longitudeDisplacement") ∧
  unitInv st.s.time_unit (unitsSeen json procd "timePeriod")

/-- Flattened record for the C5 scenario: the same variable
(airTemperature) recorded first with unit K, later with unit degC. -/
def c5Json : JsonFlat :=
  [("a_key", .str "airTemperature"), ("a_value", .num 300),
   ("a_units", .str "K"),
   ("b_key", .str "airTemperature"), ("b_value", .num 290),
   ("b_units", .str "degC")]

/-- The key key prefixes of c5Json. -/
def c5Keys : List String := ["a", "b"]

theorem nan_argsort_perm (array : List (Option ℚ)) (direction : ℤ) :
    (nan_argsort array direction).Perm (List.range array.length) := by
  unfold nan_argsort
  have h := (List.perm_insertionSort (α := SortKey ×ₗ ℕ) (· ≤ ·)
    ((List.range array.length).map
      (fun i => toLex (keyOf direction (array.getD i none), i)))).map
    (fun p => (ofLex p).2)
  simpa [List.map_map, Function.comp_def, ofLex_toLex, List.map_id] using h

theorem nan_argsort_length (array : List (Option ℚ)) (direction : ℤ) :
    (nan_argsort array direction).length = array.length := by
  have := (nan_argsort_perm array direction).length_eq
  simpa using this

theorem nan_argsort_mem {array : List (Option ℚ)} {direction : ℤ} {i : ℕ}
    (h : i ∈ nan_argsort array direction) : i < array.length := by
  have := (nan_argsort_perm array direction).mem_iff.mp h
  simpa using this

theorem nan_argsort_pairwise (array : List (Option ℚ)) (direction : ℤ) :
    (nan_argsort array direction).Pairwise
      (fun i j => keyOf direction (array.getD i none) ≤
        keyOf direction (array.getD j none)) := by
  unfold nan_argsort
  rw [List.pairwise_map]
  have hs : List.Sorted (α := SortKey ×ₗ ℕ) (· ≤ ·)
      (((List.range array.length).map
        (fun i => toLex (keyOf direction (array.getD i none), i))).insertionSort
          (· ≤ ·)) :=
    List.sorted_insertionSort (· ≤ ·) _
  refine List.Pairwise.imp_of_mem ?_ hs
  intro a b ha hb hab
  rw [List.mem_insertionSort] at ha hb
  rcases List.mem_map.mp ha with ⟨i, _, rfl⟩
  rcases List.mem_map.mp hb with ⟨j, _, rfl⟩
  rcases (Prod.Lex.le_iff _ _).mp hab with hlt | ⟨heq, _⟩
  · simpa using le_of_lt hlt
  · simpa using le_of_eq heq

/-- Claim C2, counterexample: the claim says that for direction +1
(ascending sounding) nan_argsort places the missing-time indices at
the END of the sequence.  On the array [NaN, 0.0] with direction +1
the code maps NaN to -inf * 1 = -inf, so np.argsort returns [0, 1]:
the missing index 0 is placed FIRST, ahead of the non-missing index 1,
refuting the claimed placement. -/
theorem claim_C2_counterexample :
    nan_argsort [none, some 0] 1 = [0, 1] ∧
    ¬ missingAtEnd [none, some 0] (nan_argsort [none, some 0] 1) := by
  constructor
  · decide
  · decide

/-- Claim C2, amended: nan_argsort returns a permutation of the index
range; for direction +1 the missing (NaN) entries are sorted to the
START of the sequence (NaN is replaced by -inf), for direction -1 to
the END (NaN is replaced by +inf), and in both directions the
non-missing entries appear ordered by their numeric time value. -/
theorem claim_C2_nan_argsort_spec (array : List (Option ℚ)) :
    (nan_argsort array 1).Perm (List.range array.length) ∧
    (nan_argsort array (-1)).Perm (List.range array.length) ∧
    missingAtStart array (nan_argsort array 1) ∧
    missingAtEnd array (nan_argsort array (-1)) ∧
    valuesSorted array (nan_argsort array 1) ∧
    valuesSorted array (nan_argsort array (-1)) := by
  refine ⟨nan_argsort_perm _ _, nan_argsort_perm _ _, ?_, ?_, ?_, ?_⟩
  · refine (nan_argsort_pairwise array 1).imp ?_
    intro i j hk hj
    rw [hj] at hk
    cases h : array.getD i none with
    | none => rfl
    | some q =>
        rw [h] at hk
        simp [keyOf, le_bot_iff] at hk
  · refine (nan_argsort_pairwise array (-1)).imp ?_
    intro i j hk hi
    rw [hi] at hk
    cases h : array.getD j none with
    | none => rfl
    | some q =>
        rw [h] at hk
        simp [keyOf, top_le_iff] at hk
  · refine (nan_argsort_pairwise array 1).imp ?_
    intro i j hk a b ha hb
    rw [ha, hb] at hk
    simpa [keyOf] using hk
  · refine (nan_argsort_pairwise array (-1)).imp ?_
    intro i j hk a b ha hb
    rw [ha, hb] at hk
    simpa [keyOf] using hk

theorem applySorter_length (sorter : List ℕ) (xs : List (Option ℚ)) :
    (applySorter sorter xs).length = sorter.length := by
  simp [applySorter]

theorem applySorter_getD (sorter : List ℕ) (xs : List (Option ℚ)) {i : ℕ}
    (h : i < sorter.length) :
    (applySorter sorter xs).getD i none = xs.getD (sorter.getD i 0) none := by
  simp [applySorter, List.getD_eq_getElem?_getD, List.getElem?_map,
    List.getElem?_eq_getElem h]

theorem applySorter_range (xs : List (Option ℚ)) (n : ℕ) (h : xs.length = n) :
    applySorter (List.range n) xs = xs := by
  subst h
  apply List.ext_getElem
  · simp [applySorter]
  · intro i h1 h2
    simp [applySorter, List.getD_eq_getElem?_getD, List.getElem?_eq_getElem h2]

theorem nan_argsort_applySorter (array : List (Option ℚ)) (direction : ℤ) :
    nan_argsort (applySorter (nan_argsort array direction) array) direction =
      List.range array.length := by
  set p := nan_argsort array direction with hpdef
  have hplen : p.length = array.length := nan_argsort_length array direction
  have htlen : (applySorter p array).length = array.length := by
    rw [applySorter_length, hplen]
  have hkey : ∀ i : ℕ, i < array.length →
      keyOf direction ((applySorter p array).getD i none) =
        keyOf direction (array.getD (p.getD i 0) none) := by
    intro i hi
    rw [applySorter_getD p array (by omega)]
  have hmono : ∀ i j : ℕ, i < j → j < array.length →
      keyOf direction ((applySorter p array).getD i none) ≤
        keyOf direction ((applySorter p array).getD j none) := by
    intro i j hij hj
    rw [hkey i (hij.trans hj), hkey j hj]
    have hpw := nan_argsort_pairwise array direction
    rw [← hpdef, List.pairwise_iff_get] at hpw
    have hi' : i < p.length := by omega
    have hj' : j < p.length := by omega
    have := hpw ⟨i, hi'⟩ ⟨j, hj'⟩ hij
    have hgi : p.get ⟨i, hi'⟩ = p.getD i 0 := by
      simp [List.getD_eq_getElem?_getD, List.getElem?_eq_getElem hi']
    have hgj : p.get ⟨j, hj'⟩ = p.getD j 0 := by
      simp [List.getD_eq_getElem?_getD, List.getElem?_eq_getElem hj']
    rwa [hgi, hgj] at this
  have hsorted : List.Sorted (α := SortKey ×ₗ ℕ) (· ≤ ·)
      ((List.range (applySorter p array).length).map
        (fun i => toLex (keyOf direction ((applySorter p array).getD i none), i))) := by
    rw [List.Sorted, List.pairwise_map]
    refine List.Pairwise.imp_of_mem ?_ (List.pairwise_lt_range _)
    intro a b _ hb hab
    rw [Prod.Lex.le_iff]
    have hb' : b < array.length := by
      have := List.mem_range.mp hb
      omega
    rcases lt_or_eq_of_le (hmono a b hab hb') with h | h
    · exact Or.inl h
    · exact Or.inr ⟨h, le_of_lt hab⟩
  unfold nan_argsort
  rw [List.Sorted.insertionSort_eq hsorted, List.map_map]
  simp [Function.comp_def, ofLex_toLex, List.map_id, htlen]

/-- The claimed idempotence does hold for the STABLE model of
np.argsort (indices with equal keys kept in order), i.e. for the
behavior the spec evidently intends: for every sounding, applying
sort_sounding_by_time twice under the stable model yields the same
arrays as applying it once.  This is a statement about the intended
stable behavior only — the source calls np.argsort with its default
unstable quicksort kind, whose admissible results on tie blocks break
the idempotence, as the C9 counterexample below shows. -/
theorem sort_sounding_stable_idempotent (s : SoundingArrays) :
    sort_sounding_by_time (sort_sounding_by_time s) = sort_sounding_by_time s := by
  simp only [sort_sounding_by_time, sort_sounding_with]
  rw [nan_argsort_applySorter s.time s.direction]
  congr 1 <;>
    exact applySorter_range _ _ (by rw [applySorter_length, nan_argsort_length])

/-- Claim C9, failing behavior: sorting twice need not equal sorting
once for the program, because np.argsort is called with its default
unstable quicksort kind.  c9Sounding is already sorted by time (the
stable model fixes it, so it is a possible result of the first sort),
its two time values tie, and the permutation [1, 0] is an admissible
np.argsort result for those tied keys — quicksort guarantees nothing
about the order within a tie block (numpy permutes equal keys on tie
runs of 17 or more, the quicksort path) — yet applying it as the
second sort swaps the ascentrate entries, so the re-sorted sounding
differs from the once-sorted one.  The same admissibility holds for a
time series of two missing values, whose keys are both the same
infinity.  Hence the claimed idempotence, asserted to cover ties and
multiple missing values, is exactly what the unstable sort fails to
guarantee. -/
theorem claim_C9_unstable_cex :
    sort_sounding_by_time c9Sounding = c9Sounding ∧
    IsArgsortResult c9Sounding.time c9Sounding.direction [1, 0] ∧
    sort_sounding_with [1, 0] c9Sounding ≠ c9Sounding ∧
    (sort_sounding_with [1, 0] c9Sounding).ascentrate ≠
      c9Sounding.ascentrate ∧
    IsArgsortResult [none, none] 1 [1, 0] ∧
    IsArgsortResult [none, none] (-1) [1, 0] := by
  refine ⟨?_, ⟨?_, ?_⟩, ?_, ?_, ⟨?_, ?_⟩, ⟨?_, ?_⟩⟩ <;> decide

theorem boolMask_self (time : List (Option ℚ)) :
    boolMask (time.map Option.isSome) time = time.filter (fun x => x.isSome) := by
  induction time with
  | nil => simp [boolMask]
  | cons t ts ih =>
      cases t with
      | none => simpa [boolMask] using ih
      | some q => simpa [boolMask] using ih

theorem boolMask_filter_range (time xs : List (Option ℚ))
    (h : xs.length = time.length) :
    boolMask (time.map Option.isSome) xs =
      ((List.range time.length).filter
        (fun i => (time.getD i none).isSome)).map (fun i => xs.getD i none) := by
  induction time generalizing xs with
  | nil =>
      cases xs with
      | nil => simp [boolMask]
      | cons x xs' => simp at h
  | cons t ts ih =>
      cases xs with
      | nil => simp at h
      | cons x xs' =>
          have h' : xs'.length = ts.length := by simpa using h
          have ihx := ih xs' h'
          cases t with
          | none =>
              simpa [boolMask, List.range_succ_eq_map, List.filter_map,
                Function.comp_def, List.map_map] using ihx
          | some q =>
              simpa [boolMask, List.range_succ_eq_map, List.filter_map,
                Function.comp_def, List.map_map] using ihx

/-- Claim C7: exclude_1000hPa_gpm removes exactly the rows whose time
value is missing (NaN), applying the time-derived mask identically to
all twelve series.  The filtered time series consists of exactly its
non-missing entries in their original order, and every other series
keeps exactly the entries at the index positions with non-missing
time, in increasing index order — rows with missing values in other
variables are kept, and the relative order of kept rows is unchanged. -/
theorem claim_C7_exclude_exactly_missing_time (s : SoundingArrays)
    (ha : s.ascentrate.length = s.time.length)
    (hg : s.gpm.length = s.time.length)
    (hp : s.pressure.length = s.time.length)
    (ht : s.temperature.length = s.time.length)
    (hr : s.relativehumidity.length = s.time.length)
    (hd : s.dewpoint.length = s.time.length)
    (hm : s.mixingratio.length = s.time.length)
    (hw : s.windspeed.length = s.time.length)
    (hwd : s.winddirection.length = s.time.length)
    (hla : s.latitude.length = s.time.length)
    (hlo : s.longitude.length = s.time.length) :
    (exclude_1000hPa_gpm s).time = s.time.filter (fun x => x.isSome) ∧
    (exclude_1000hPa_gpm s).ascentrate =
      ((List.range s.time.length).filter
        (fun i => (s.time.getD i none).isSome)).map
          (fun i => s.ascentrate.getD i none) ∧
    (exclude_1000hPa_gpm s).gpm =
      ((List.range s.time.length).filter
        (fun i => (s.time.getD i none).isSome)).map
          (fun i => s.gpm.getD i none) ∧
    (exclude_1000hPa_gpm s).pressure =
      ((List.range s.time.length).filter
        (fun i => (s.time.getD i none).isSome)).map
          (fun i => s.pressure.getD i none) ∧
    (exclude_1000hPa_gpm s).temperature =
      ((List.range s.time.length).filter
        (fun i => (s.time.getD i none).isSome)).map
          (fun i => s.temperature.getD i none) ∧
    (exclude_1000hPa_gpm s).relativehumidity =
      ((List.range s.time.length).filter
        (fun i => (s.time.getD i none).isSome)).map
          (fun i => s.relativehumidity.getD i none) ∧
    (exclude_1000hPa_gpm s).dewpoint =
      ((List.range s.time.length).filter
        (fun i => (s.time.getD i none).isSome)).map
          (fun i => s.dewpoint.getD i none) ∧
    (exclude_1000hPa_gpm s).mixingratio =
      ((List.range s.time.length).filter
        (fun i => (s.time.getD i none).isSome)).map
          (fun i => s.mixingratio.getD i none) ∧
    (exclude_1000hPa_gpm s).windspeed =
      ((List.range s.time.length).filter
        (fun i => (s.time.getD i none).isSome)).map
          (fun i => s.windspeed.getD i none) ∧
    (exclude_1000hPa_gpm s).winddirection =
      ((List.range s.time.length).filter
        (fun i => (s.time.getD i none).isSome)).map
          (fun i => s.winddirection.getD i none) ∧
    (exclude_1000hPa_gpm s).latitude =
      ((List.range s.time.length).filter
        (fun i => (s.time.getD i none).isSome)).map
          (fun i => s.latitude.getD i none) ∧
    (exclude_1000hPa_gpm s).longitude =
      ((List.range s.time.length).filter
        (fun i => (s.time.getD i none).isSome)).map
          (fun i => s.longitude.getD i none) :=
  ⟨boolMask_self s.time,
   boolMask_filter_range s.time s.ascentrate ha,
   boolMask_filter_range s.time s.gpm hg,
   boolMask_filter_range s.time s.pressure hp,
   boolMask_filter_range s.time s.temperature ht,
   boolMask_filter_range s.time s.relativehumidity hr,
   boolMask_filter_range s.time s.dewpoint hd,
   boolMask_filter_range s.time s.mixingratio hm,
   boolMask_filter_range s.time s.windspeed hw,
   boolMask_filter_range s.time s.winddirection hwd,
   boolMask_filter_range s.time s.latitude hla,
   boolMask_filter_range s.time s.longitude hlo⟩

/-- Concrete instantiation of claim C7: a three-sample sounding whose
middle time entry is missing drops exactly its middle row from every
series, keeping a row whose gpm entry is missing. -/
theorem claim_C7_witness :
    (exclude_1000hPa_gpm
      (SoundingArrays.mk [some 0, none, some 2] [some 1, some 2, some 3]
        [none, some 5, some 6] [some 7, some 8, some 9]
        [some 10, some 11, some 12] [some 13, some 14, some 15]
        [some 16, some 17, some 18] [some 19, some 20, some 21]
        [some 22, some 23, some 24] [some 25, some 26, some 27]
        [some 28, some 29, some 30] [some 31, some 32, some 33] 1)).time =
      [some 0, some 2] ∧
    (exclude_1000hPa_gpm
      (SoundingArrays.mk [some 0, none, some 2] [some 1, some 2, some 3]
        [none, some 5, some 6] [some 7, some 8, some 9]
        [some 10, some 11, some 12] [some 13, some 14, some 15]
        [some 16, some 17, some 18] [some 19, some 20, some 21]
        [some 22, some 23, some 24] [some 25, some 26, some 27]
        [some 28, some 29, some 30] [some 31, some 32, some 33] 1)).gpm =
      [none, some 6] := by
  have h := claim_C7_exclude_exactly_missing_time
    (SoundingArrays.mk [some 0, none, some 2] [some 1, some 2, some 3]
      [none, some 5, some 6] [some 7, some 8, some 9]
      [some 10, some 11, some 12] [some 13, some 14, some 15]
      [some 16, some 17, some 18] [some 19, some 20, some 21]
      [some 22, some 23, some 24] [some 25, some 26, some 27]
      [some 28, some 29, some 30] [some 31, some 32, some 33] 1)
    rfl rfl rfl rfl rfl rfl rfl rfl rfl rfl rfl
  refine ⟨?_, ?_⟩
  · rw [h.1]
    decide
  · rw [h.2.2.1]
    decide

/-- Claim C8: get_sounding_direction returns +1 for format identifier
309057, -1 for 309053 and for 309056, and raises NotImplementedError
for every other identifier; no default direction is ever returned. -/
theorem claim_C8_get_sounding_direction :
    get_sounding_direction 309057 = .ok 1 ∧
    get_sounding_direction 309053 = .ok (-1) ∧
    get_sounding_direction 309056 = .ok (-1) ∧
    ∀ m : ℤ, m ≠ 309053 → m ≠ 309056 → m ≠ 309057 →
      get_sounding_direction m = .error .notImplemented := by
  refine ⟨rfl, rfl, rfl, ?_⟩
  intro m h1 h2 h3
  simp [get_sounding_direction, h1, h2, h3]

/-- Concrete instantiation of claim C8 at the unrecognized identifier
309052. -/
theorem claim_C8_witness :
    get_sounding_direction 309052 = .error .notImplemented :=
  claim_C8_get_sounding_direction.2.2.2 309052 (by decide) (by decide) (by decide)

theorem map_replace_none_spec (l : List PyVal) :
    noneReplaced l (l.map replace_none) := by
  refine ⟨by simp, ?_⟩
  intro i hi
  have hg : (l.map replace_none).getD i .null = replace_none (l.getD i .null) := by
    simp [List.getD_eq_getElem?_getD, List.getElem?_map,
      List.getElem?_eq_getElem hi]
  constructor
  · intro h
    rw [hg, h]
    rfl
  · intro h
    rw [hg]
    unfold replace_none
    rw [if_neg h]

/-- Claim C10: replace_missing_data replaces None entries by NaN in
exactly the nine measurement series displacement_lat,
displacement_lon, pressure, windspeed, winddirection, temperature,
dewpoint, gpm and time, leaving every non-None entry and all series
lengths unchanged, and leaving every other Sounding field (unit
labels, metadata, station coordinates, launch time) unchanged. -/
theorem claim_C10_replace_missing_data (s : Sounding) :
    noneReplaced s.displacement_lat (replace_missing_data s).displacement_lat ∧
    noneReplaced s.displacement_lon (replace_missing_data s).displacement_lon ∧
    noneReplaced s.pressure (replace_missing_data s).pressure ∧
    noneReplaced s.windspeed (replace_missing_data s).windspeed ∧
    noneReplaced s.winddirection (replace_missing_data s).winddirection ∧
    noneReplaced s.temperature (replace_missing_data s).temperature ∧
    noneReplaced s.dewpoint (replace_missing_data s).dewpoint ∧
    noneReplaced s.gpm (replace_missing_data s).gpm ∧
    noneReplaced s.time (replace_missing_data s).time ∧
    (replace_missing_data s).station_lat = s.station_lat ∧
    (replace_missing_data s).station_lon = s.station_lon ∧
    (replace_missing_data s).sounding_start_time = s.sounding_start_time ∧
    (replace_missing_data s).time_unit = s.time_unit ∧
    (replace_missing_data s).pressure_unit = s.pressure_unit ∧
    (replace_missing_data s).temperature_unit = s.temperature_unit ∧
    (replace_missing_data s).dewpoint_unit = s.dewpoint_unit ∧
    (replace_missing_data s).windspeed_unit = s.windspeed_unit ∧
    (replace_missing_data s).winddirection_unit = s.winddirection_unit ∧
    (replace_missing_data s).gpm_unit = s.gpm_unit ∧
    (replace_missing_data s).displacement_lat_unit = s.displacement_lat_unit ∧
    (replace_missing_data s).displacement_lon_unit = s.displacement_lon_unit ∧
    (replace_missing_data s).meta_data = s.meta_data :=
  ⟨map_replace_none_spec _, map_replace_none_spec _, map_replace_none_spec _,
   map_replace_none_spec _, map_replace_none_spec _, map_replace_none_spec _,
   map_replace_none_spec _, map_replace_none_spec _, map_replace_none_spec _,
   rfl, rfl, rfl, rfl, rfl, rfl, rfl, rfl, rfl, rfl, rfl, rfl, rfl⟩

/-- Claim C3, failing input: on the time series [0, 2, 4, 9, 11] the
absolute differences are [2, 2, 5, 2]; their most frequent value (the
mode) is 2, occurring three times, while 5 occurs once.  The code
computes argmax of the bincount, which is the mode 2, but then uses it
as an index into the difference array and returns
time_differences[2] = 5 — not the mode.  This contradicts the claim
and the function docstring (returning the most common difference). -/
theorem claim_C3_code_eval :
    calc_temporal_resolution [0, 2, 4, 9, 11] = some 5 ∧
    timeDiffs [0, 2, 4, 9, 11] = [2, 2, 5, 2] ∧
    (timeDiffs [0, 2, 4, 9, 11]).count 2 = 3 ∧
    (timeDiffs [0, 2, 4, 9, 11]).count 5 = 1 ∧
    (5 : ℚ) ≠ 2 := by
  have h1 : timeDiffs [0, 2, 4, 9, 11] = [2, 2, 5, 2] := by
    norm_num [timeDiffs, ratAbs]
  have h2 : List.map toIntTrunc [2, 2, 5, 2] = [(2 : ℕ), 2, 5, 2] := by
    norm_num [toIntTrunc]
    decide
  have h3 : argmax (bincount [(2 : ℕ), 2, 5, 2]) = some 2 := by decide
  refine ⟨?_, h1, ?_, ?_, by norm_num⟩
  · simp only [calc_temporal_resolution, h1, h2, h3]
    norm_num
  · rw [h1]
    norm_num [List.count_cons]
  · rw [h1]
    norm_num [List.count_cons]

theorem exceptBind_ok {α β : Type} {x : Except PyErr α} {f : α → Except PyErr β}
    {b : β} (h : (x >>= f) = .ok b) : ∃ a, x = .ok a ∧ f a = .ok b := by
  cases x with
  | error e =>
      exact absurd h (by simp [Bind.bind, Except.bind])
  | ok a =>
      refine ⟨a, rfl, ?_⟩
      simpa [Bind.bind, Except.bind] using h

theorem checkVar_pass (l : List PyVal) (exp out : String) :
    checkVar l (.str out) exp out = .ok (l, .str out) := by
  simp [checkVar]

theorem checkVar_K (l : List PyVal) :
    checkVar l (.str "K") "K" "degC" =
      .ok (l.map kelvin_to_celsius, .str "degC") := by
  rfl

theorem checkVar_fail (l : List PyVal) (u exp out : String)
    (hne : u ≠ out)
    (hf : converter_dict (u ++ "-->" ++ out) = none) :
    checkVar l (.str u) exp out = .error (.unexpectedUnit exp u) := by
  simp [checkVar, hne, hf]

/-- Claim C6: for a sounding whose temperature series is recorded with
unit K, a successful expected_unit_check has subtracted 273.15 from
each temperature element and set the unit label to degC; likewise for
dewpoint; and for a variable recorded with a unit that has no
registered conversion to its target unit, expected_unit_check raises
UnexpectedUnit naming the expected (bufr) unit and the actual recorded
unit (stated here for temperature, with the five variables checked
before it passing unchanged). -/
theorem claim_C6_expected_unit_check :
    (∀ (s s' : Sounding), s.temperature_unit = .str "K" →
      expected_unit_check s = .ok s' →
      s'.temperature = s.temperature.map kelvin_to_celsius ∧
      s'.temperature_unit = .str "degC") ∧
    (∀ (s s' : Sounding), s.dewpoint_unit = .str "K" →
      expected_unit_check s = .ok s' →
      s'.dewpoint = s.dewpoint.map kelvin_to_celsius ∧
      s'.dewpoint_unit = .str "degC") ∧
    (∀ (s : Sounding) (u : String),
      s.displacement_lat_unit = .str "deg" →
      s.displacement_lon_unit = .str "deg" →
      s.pressure_unit = .str "hPa" →
      s.windspeed_unit = .str "m/s" →
      s.winddirection_unit = .str "deg" →
      s.temperature_unit = .str u → u ≠ "degC" →
      converter_dict (u ++ "-->" ++ "degC") = none →
      expected_unit_check s = .error (.unexpectedUnit "K" u)) := by
  refine ⟨?_, ?_, ?_⟩
  · intro s s' hK hok
    unfold expected_unit_check at hok
    obtain ⟨p1, h1, hok⟩ := exceptBind_ok hok
    obtain ⟨p2, h2, hok⟩ := exceptBind_ok hok
    obtain ⟨p3, h3, hok⟩ := exceptBind_ok hok
    obtain ⟨p4, h4, hok⟩ := exceptBind_ok hok
    obtain ⟨p5, h5, hok⟩ := exceptBind_ok hok
    obtain ⟨p6, h6, hok⟩ := exceptBind_ok hok
    obtain ⟨p7, h7, hok⟩ := exceptBind_ok hok
    obtain ⟨p8, h8, hok⟩ := exceptBind_ok hok
    obtain ⟨p9, h9, hok⟩ := exceptBind_ok hok
    rw [hK, checkVar_K] at h6
    injection h6 with h6
    simp only [pure, Except.pure, Except.ok.injEq] at hok
    subst hok
    subst h6
    exact ⟨rfl, rfl⟩
  · intro s s' hK hok
    unfold expected_unit_check at hok
    obtain ⟨p1, h1, hok⟩ := exceptBind_ok hok
    obtain ⟨p2, h2, hok⟩ := exceptBind_ok hok
    obtain ⟨p3, h3, hok⟩ := exceptBind_ok hok
    obtain ⟨p4, h4, hok⟩ := exceptBind_ok hok
    obtain ⟨p5, h5, hok⟩ := exceptBind_ok hok
    obtain ⟨p6, h6, hok⟩ := exceptBind_ok hok
    obtain ⟨p7, h7, hok⟩ := exceptBind_ok hok
    obtain ⟨p8, h8, hok⟩ := exceptBind_ok hok
    obtain ⟨p9, h9, hok⟩ := exceptBind_ok hok
    rw [hK, checkVar_K] at h7
    injection h7 with h7
    simp only [pure, Except.pure, Except.ok.injEq] at hok
    subst hok
    subst h7
    exact ⟨rfl, rfl⟩
  · intro s u h1 h2 h3 h4 h5 hu hne hconv
    unfold expected_unit_check
    rw [h1, checkVar_pass, h2, checkVar_pass, h3, checkVar_pass,
      h4, checkVar_pass, h5, checkVar_pass, hu,
      checkVar_fail s.temperature u "K" "degC" hne hconv]
    simp [Bind.bind, Except.bind]

/-- Concrete instantiation of claim C6: the samples [300.0 K, 290.0 K]
become [26.85 degC, 16.85 degC]. -/
theorem claim_C6_witness :
    ∃ s' : Sounding, expected_unit_check c6Sounding = .ok s' ∧
      s'.temperature = [.num 26.85, .num 16.85] ∧
      s'.temperature_unit = .str "degC" := by
  have hok : expected_unit_check c6Sounding = .ok c6Converted := rfl
  have h := claim_C6_expected_unit_check.1 c6Sounding c6Converted rfl hok
  refine ⟨c6Converted, hok, ?_, h.2⟩
  rw [h.1]
  show [PyVal.num 300, PyVal.num 290].map kelvin_to_celsius =
    [.num 26.85, .num 16.85]
  simp only [List.map_cons, List.map_nil, kelvin_to_celsius]
  norm_num

theorem digitsRevFuel_eq (fuel : ℕ) :
    ∀ n : ℕ, n ≤ fuel → digitsRevFuel fuel n = Nat.digits 10 n := by
  induction fuel with
  | zero =>
      intro n hn
      interval_cases n
      simp [digitsRevFuel]
  | succ f ih =>
      intro n hn
      cases n with
      | zero => simp [digitsRevFuel]
      | succ m =>
          rw [digitsRevFuel, ih ((m + 1) / 10) ?_, Nat.digits_def' (by norm_num) (Nat.succ_pos m)]
          have := Nat.div_lt_self (Nat.succ_pos m) (show 1 < 10 by norm_num)
          omega

theorem digitsRev_eq (r : ℕ) : digitsRev r = Nat.digits 10 r :=
  digitsRevFuel_eq r r le_rfl

/-- Claim C4, counterexample: the claim says the occurrence counter
increments exactly once per encountered leaf and that consequently no
two synthetic keys collide.  In the code the counter is incremented
only once per LIST element and never for leaves inside dicts, so on
the input obj [a: 1, b: 2] both leaves get counter 0 (the claim would
give the second leaf the key 0000001_b), and on the input
obj [a: obj [b: 1], c: obj [b: 2]] the two leaves produce the SAME key
0000000_b: the output has a single entry and the first leaf value is
lost by key overwriting. -/
theorem claim_C4_counterexample :
    flatten_json (.obj [("a", .val (.num 1)), ("b", .val (.num 2))]) =
      [("0000000_a", .num 1), ("0000000_b", .num 2)] ∧
    flatten_json (.obj [("a", .obj [("b", .val (.num 1))]),
      ("c", .obj [("b", .val (.num 2))])]) = [("0000000_b", .num 2)] := by
  constructor
  · have ha : fmtKey 0 "a" = "0000000_a" := by decide
    have hb : fmtKey 0 "b" = "0000000_b" := by decide
    have hne : ("0000000_a" : String) ≠ "0000000_b" := by decide
    simp [flatten_json, flattenAux, flattenObj, flattenArr, dictInsert,
      ha, hb, hne]
  · have hb : fmtKey 0 "b" = "0000000_b" := by decide
    simp [flatten_json, flattenAux, flattenObj, flattenArr, dictInsert, hb]

theorem ofDigits_replicate_zero (k : ℕ) :
    Nat.ofDigits 10 (List.replicate k 0) = 0 := by
  induction k with
  | zero => simp
  | succ m ih => simp [List.replicate_succ, Nat.ofDigits_cons, ih]

theorem pad7digits_val (r : ℕ) :
    Nat.ofDigits 10 (pad7digits r).reverse = r := by
  unfold pad7digits natDigits
  rw [List.reverse_append, List.reverse_reverse, List.reverse_replicate,
    digitsRev_eq, Nat.ofDigits_append, Nat.ofDigits_digits,
    ofDigits_replicate_zero]
  ring

theorem pad7digits_inj {r s : ℕ} (h : pad7digits r = pad7digits s) :
    r = s := by
  have := congrArg (fun l => Nat.ofDigits 10 l.reverse) h
  simpa [pad7digits_val] using this

theorem pad7digits_lt (r : ℕ) : ∀ x ∈ pad7digits r, x < 10 := by
  intro x hx
  rcases List.mem_append.mp hx with h | h
  · have := List.eq_of_mem_replicate h
    omega
  · rw [natDigits, List.mem_reverse, digitsRev_eq] at h
    exact Nat.digits_lt_base (by norm_num) h

theorem digitChar_inj {a b : ℕ} (ha : a < 10) (hb : b < 10)
    (h : Nat.digitChar a = Nat.digitChar b) : a = b := by
  have hd : ∀ x : Fin 10, ∀ y : Fin 10,
      Nat.digitChar x.val = Nat.digitChar y.val → x = y := by decide
  simpa using congrArg Fin.val (hd ⟨a, ha⟩ ⟨b, hb⟩ h)

theorem map_digitChar_inj : ∀ {l m : List ℕ}, (∀ x ∈ l, x < 10) →
    (∀ x ∈ m, x < 10) → l.map Nat.digitChar = m.map Nat.digitChar →
    l = m := by
  intro l
  induction l with
  | nil =>
      intro m _ _ h
      cases m with
      | nil => rfl
      | cons b t => simp at h
  | cons a t ih =>
      intro m hl hm h
      cases m with
      | nil => simp at h
      | cons b u =>
          simp only [List.map_cons, List.cons.injEq] at h
          have hab := digitChar_inj (hl a (by simp)) (hm b (by simp)) h.1
          subst hab
          rw [ih (fun x hx => hl x (by simp [hx]))
            (fun x hx => hm x (by simp [hx])) h.2]

theorem pad7_inj {r s : ℕ} (h : pad7 r = pad7 s) : r = s := by
  unfold pad7 at h
  have hdata : (pad7digits r).map Nat.digitChar =
      (pad7digits s).map Nat.digitChar := congrArg String.data h
  exact pad7digits_inj (map_digitChar_inj (pad7digits_lt r) (pad7digits_lt s)
    hdata)

theorem string_data_inj {a b : String} (h : a.data = b.data) : a = b := by
  cases a with
  | mk d1 =>
      cases b with
      | mk d2 => exact congrArg String.mk h

theorem digits_length_le {r : ℕ} (h : r < 10 ^ 7) :
    (Nat.digits 10 r).length ≤ 7 := by
  rcases Nat.eq_zero_or_pos r with rfl | hr
  · simp
  by_contra hlen
  push_neg at hlen
  have h1 := Nat.base_pow_length_digits_le 10 r (by norm_num) (by omega)
  have h2 : (10 : ℕ) ^ 8 ≤ 10 ^ (Nat.digits 10 r).length :=
    Nat.pow_le_pow_right (by norm_num) (by omega)
  have h3 : (10 : ℕ) ^ 8 = 100000000 := by norm_num
  have h4 : (10 : ℕ) ^ 7 = 10000000 := by norm_num
  have h5 := le_trans h2 h1
  omega

theorem pad7digits_length {r : ℕ} (h : r < 10 ^ 7) :
    (pad7digits r).length = 7 := by
  have hlen : (natDigits r).length ≤ 7 := by
    rw [natDigits, List.length_reverse, digitsRev_eq]
    exact digits_length_le h
  simp only [pad7digits, List.length_append, List.length_replicate]
  omega

theorem fmtKey_name_inj (r : ℕ) {a b : String}
    (h : fmtKey r a = fmtKey r b) : a = b := by
  unfold fmtKey at h
  have hd : (pad7 r ++ "_").data ++ a.data = (pad7 r ++ "_").data ++ b.data := by
    have := congrArg String.data h
    simpa [String.data_append] using this
  exact string_data_inj (List.append_cancel_left hd)

theorem fmtKey_inj {r s : ℕ} {a b : String} (hr : r < 10 ^ 7)
    (hs : s < 10 ^ 7) (h : fmtKey r a = fmtKey s b) : r = s ∧ a = b := by
  unfold fmtKey at h
  have hd := congrArg String.data h
  simp only [String.data_append, List.append_assoc] at hd
  have hlen : ((pad7 r).data).length = ((pad7 s).data).length := by
    show ((pad7digits r).map Nat.digitChar).length =
      ((pad7digits s).map Nat.digitChar).length
    simp [pad7digits_length hr, pad7digits_length hs]
  obtain ⟨h1, h2⟩ := List.append_inj hd hlen
  exact ⟨pad7_inj (string_data_inj h1),
    string_data_inj (List.append_cancel_left h2)⟩

theorem dictInsert_fresh {out : List (String × PyVal)} {k : String}
    (v : PyVal) (h : ∀ q ∈ out, q.1 ≠ k) :
    dictInsert out k v = out ++ [(k, v)] := by
  induction out with
  | nil => rfl
  | cons q rest ih =>
      have hq : q.1 ≠ k := h q (by simp)
      simp only [dictInsert, if_neg hq, List.cons_append, List.cons.injEq,
        true_and]
      exact ih (fun p hp => h p (by simp [hp]))

theorem flattenObj_flat (rec : List (String × PyVal)) :
    ∀ (r : ℕ) (out : List (String × PyVal)),
    flattenObj (rec.map (fun p => (p.1, J.val p.2))) r out =
      (r, rec.foldl (fun acc p => dictInsert acc (fmtKey r p.1) p.2) out) := by
  induction rec with
  | nil => intro r out; rfl
  | cons p rest ih =>
      intro r out
      simp only [List.map_cons, flattenObj, flattenAux, List.foldl_cons]
      exact ih r (dictInsert out (fmtKey r p.1) p.2)

theorem foldl_dictInsert_fresh (rec : List (String × PyVal)) :
    ∀ (r : ℕ) (out : List (String × PyVal)),
    (∀ p ∈ rec, ∀ q ∈ out, q.1 ≠ fmtKey r p.1) →
    (rec.map Prod.fst).Nodup →
    rec.foldl (fun acc p => dictInsert acc (fmtKey r p.1) p.2) out =
      out ++ rec.map (fun p => (fmtKey r p.1, p.2)) := by
  induction rec with
  | nil => intro r out _ _; simp
  | cons p rest ih =>
      intro r out hfresh hnodup
      simp only [List.foldl_cons, List.map_cons]
      rw [dictInsert_fresh p.2 (hfresh p (by simp))]
      rw [ih r (out ++ [(fmtKey r p.1, p.2)]) ?_ ?_]
      · simp
      · intro p' hp' q hq
        rcases List.mem_append.mp hq with hqo | hqn
        · exact hfresh p' (by simp [hp']) q hqo
        · have hq1 : q.1 = fmtKey r p.1 := by
            rcases List.mem_singleton.mp hqn with rfl
            rfl
          rw [hq1]
          intro hcontra
          have : p.1 = p'.1 := fmtKey_name_inj r hcontra
          simp only [List.map_cons, List.nodup_cons] at hnodup
          exact hnodup.1 (this ▸ List.mem_map_of_mem Prod.fst hp')
      · simp only [List.map_cons, List.nodup_cons] at hnodup
        exact hnodup.2

theorem flatRecords_key_shape : ∀ (records : List (List (String × PyVal)))
    (r : ℕ), ∀ p ∈ flatRecords records r,
    ∃ k name, p.1 = fmtKey k name ∧ r ≤ k ∧ k < r + records.length := by
  intro records
  induction records with
  | nil => intro r p hp; simp [flatRecords] at hp
  | cons rec rest ih =>
      intro r p hp
      rcases List.mem_append.mp hp with h | h
      · rcases List.mem_map.mp h with ⟨q, _, rfl⟩
        exact ⟨r, q.1, rfl, le_rfl, by simp⟩
      · obtain ⟨k, name, hk, h1, h2⟩ := ih (r + 1) p h
        exact ⟨k, name, hk, by omega, by simp only [List.length_cons]; omega⟩

theorem flatRecords_nodup : ∀ (records : List (List (String × PyVal)))
    (r : ℕ), r + records.length ≤ 10 ^ 7 →
    (∀ rec ∈ records, (rec.map Prod.fst).Nodup) →
    ((flatRecords records r).map Prod.fst).Nodup := by
  intro records
  induction records with
  | nil => intro r _ _; simp [flatRecords]
  | cons rec rest ih =>
      intro r hb hnames
      simp only [flatRecords, List.map_append]
      rw [List.nodup_append]
      refine ⟨?_, ?_, ?_⟩
      · have hmm : (rec.map (fun p => (fmtKey r p.1, p.2))).map Prod.fst =
            (rec.map Prod.fst).map (fmtKey r) := by
          simp [List.map_map, Function.comp_def]
        rw [hmm]
        exact (hnames rec (by simp)).map (fun a b h => fmtKey_name_inj r h)
      · refine ih (r + 1) ?_ (fun rc h => hnames rc (by simp [h]))
        simp only [List.length_cons] at hb
        omega
      · intro k hk1 hk2
        rcases List.mem_map.mp hk1 with ⟨q, hq, rfl⟩
        rcases List.mem_map.mp hq with ⟨p0, _, rfl⟩
        rcases List.mem_map.mp hk2 with ⟨p, hp, hpk⟩
        obtain ⟨k', n', hsh, h1, h2⟩ := flatRecords_key_shape rest (r + 1) p hp
        simp only [List.length_cons] at hb
        have heq : fmtKey r p0.1 = fmtKey k' n' := by rw [← hsh, hpk]
        have := fmtKey_inj (show r < 10 ^ 7 by omega)
          (show k' < 10 ^ 7 by omega) heq
        omega

theorem flattenArr_flat : ∀ (records : List (List (String × PyVal)))
    (r : ℕ) (out : List (String × PyVal)),
    r + records.length ≤ 10 ^ 7 →
    (∀ rec ∈ records, (rec.map Prod.fst).Nodup) →
    (∀ q ∈ out, ∀ p ∈ flatRecords records r, q.1 ≠ p.1) →
    flattenArr (records.map
        (fun rec => J.obj (rec.map (fun p => (p.1, J.val p.2))))) r out =
      (r + records.length, out ++ flatRecords records r) := by
  intro records
  induction records with
  | nil => intro r out _ _ _; simp [flattenArr, flatRecords]
  | cons rec rest ih =>
      intro r out hb hnames hfresh
      simp only [List.length_cons] at hb
      simp only [List.map_cons, flattenArr, flattenAux]
      rw [flattenObj_flat]
      simp only []
      rw [foldl_dictInsert_fresh rec r out ?_ (hnames rec (by simp))]
      rotate_left
      · intro p hp q hq
        refine hfresh q hq (fmtKey r p.1, p.2) ?_
        simp only [flatRecords]
        exact List.mem_append.mpr (Or.inl (List.mem_map.mpr ⟨p, hp, rfl⟩))
      rw [ih (r + 1) (out ++ rec.map (fun p => (fmtKey r p.1, p.2)))
        (by omega) (fun rc h => hnames rc (by simp [h])) ?_]
      rotate_left
      · intro q hq p hp
        rcases List.mem_append.mp hq with hqo | hqh
        · refine hfresh q hqo p ?_
          simp only [flatRecords]
          exact List.mem_append.mpr (Or.inr hp)
        · rcases List.mem_map.mp hqh with ⟨p0, _, rfl⟩
          obtain ⟨k', n', hsh, h1, h2⟩ := flatRecords_key_shape rest (r + 1) p hp
          rw [hsh]
          intro hcontra
          have := fmtKey_inj (show r < 10 ^ 7 by omega)
            (show k' < 10 ^ 7 by omega) hcontra
          omega
      simp only [flatRecords, List.length_cons, Prod.mk.injEq,
        List.append_assoc]
      exact ⟨by omega, trivial⟩

/-- Claim C4, amended: flatten_json produces keys of the form of the
7-digit zero-padded occurrence counter followed by an underscore and
the original field name, where the counter counts the list elements
fully processed so far — it increments exactly once per SEQUENCE
element (not once per leaf), so leaves occurring with equal counter
and field name collide and the later value overwrites the earlier.
On the record shape the pipeline consumes — a sequence of flat
mappings with per-mapping distinct field names, at most 10^6 records
(the zero-padding model is exact below 10^6, where the g format
switches to exponent notation) — record number k gets counter k, the
final counter equals the number of records, and no two synthetic keys
collide, so no leaf value is lost. -/
theorem claim_C4_flatten_records (records : List (List (String × PyVal)))
    (hcount : records.length ≤ 10 ^ 6)
    (hnames : ∀ rec ∈ records, (rec.map Prod.fst).Nodup) :
    flatten_json (recordsJson records) = flatRecords records 0 ∧
    (flattenAux (recordsJson records) "" 0 []).1 = records.length ∧
    ((flatten_json (recordsJson records)).map Prod.fst).Nodup := by
  have hpow : (10 : ℕ) ^ 6 ≤ 10 ^ 7 := by norm_num
  have hb : 0 + records.length ≤ 10 ^ 7 := by omega
  have h := flattenArr_flat records 0 [] hb hnames (by simp)
  have hrun : flattenAux (recordsJson records) "" 0 [] =
      (records.length, flatRecords records 0) := by
    simp only [recordsJson, flattenAux]
    rw [h]
    simp
  refine ⟨?_, ?_, ?_⟩
  · simp [flatten_json, hrun]
  · simp [hrun]
  · have : flatten_json (recordsJson records) = flatRecords records 0 := by
      simp [flatten_json, hrun]
    rw [this]
    exact flatRecords_nodup records 0 hb hnames

/-- Concrete instantiation of claim C4 (amended): two one-field
records flatten collision-free with counters 0 and 1. -/
theorem claim_C4_witness :
    flatten_json (recordsJson [[("airTemperature", PyVal.num 300)],
      [("airTemperature", PyVal.num 290)]]) =
      flatRecords [[("airTemperature", PyVal.num 300)],
        [("airTemperature", PyVal.num 290)]] 0 ∧
    ((flatten_json (recordsJson [[("airTemperature", PyVal.num 300)],
      [("airTemperature", PyVal.num 290)]])).map Prod.fst).Nodup := by
  have h := claim_C4_flatten_records
    [[("airTemperature", PyVal.num 300)], [("airTemperature", PyVal.num 290)]]
    (by norm_num) (by decide)
  exact ⟨h.1, h.2.2⟩

/-- Claim C1, code evaluation at the failing input: on a record with
one timePeriod entry, convert_json_to_arrays completes without
raising, the time series has length 1 and the seven series handled by
_ensure_measurement_integrity are padded to length 1, but the
displacement_lon series is left at length 0 — the integrity helper
omits displacement_lon, so its length does NOT equal the time length,
contradicting the claimed completeness invariant (and the helper's
own docstring, which counts the location displacement among the
fields padded to a complete measurement unit). -/
theorem claim_C1_code_eval :
    ∃ s : Sounding, convert_json_to_arrays c1Json c1Keys = .ok s ∧
      s.time.length = 1 ∧
      s.displacement_lon.length = 0 ∧
      s.temperature.length = 1 ∧ s.gpm.length = 1 ∧ s.dewpoint.length = 1 ∧
      s.pressure.length = 1 ∧ s.windspeed.length = 1 ∧
      s.winddirection.length = 1 ∧ s.displacement_lat.length = 1 := by
  refine ⟨_, rfl, ?_, ?_, ?_, ?_, ?_, ?_, ?_, ?_, ?_⟩ <;> decide

theorem unitsSeen_append (json : JsonFlat) (l1 l2 : List String)
    (name : String) : unitsSeen json (l1 ++ l2) name =
      unitsSeen json l1 name ++ unitsSeen json l2 name :=
  List.filterMap_append _ _ _

theorem unitsSeen_single_hit {json : JsonFlat} {kk name : String}
    {uv : PyVal} (hl : List.lookup (kk ++ "_key") json = some (.str name))
    (hu : List.lookup (kk ++ "_units") json = some uv) :
    unitsSeen json [kk] name = [uv] := by
  simp [unitsSeen, hl, hu]

theorem unitsSeen_single_miss {json : JsonFlat} {kk name : String}
    (hne : List.lookup (kk ++ "_key") json ≠ some (.str name)) :
    unitsSeen json [kk] name = [] := by
  simp [unitsSeen, hne]

theorem unitsSeen_str {json : JsonFlat} {procd : List String}
    (hwfp : WFkeys json procd) (name : String) :
    ∀ u ∈ unitsSeen json procd name, ∃ su, u = PyVal.str su := by
  intro u hu
  rw [unitsSeen, List.mem_filterMap] at hu
  obtain ⟨kk, hkk, hf⟩ := hu
  by_cases hc : List.lookup (kk ++ "_key") json = some (.str name)
  · rw [if_pos hc] at hf
    obtain ⟨_, _, h3⟩ := hwfp kk hkk
    rw [hf] at h3
    cases u with
    | str s => exact ⟨s, rfl⟩
    | num q => simp [isStrOpt] at h3
    | null => simp [isStrOpt] at h3
    | nan => simp [isStrOpt] at h3
  · rw [if_neg hc] at hf
    cases hf

theorem head?_append_left {l : List PyVal} (m : List PyVal) (h : l ≠ []) :
    (l ++ m).head? = l.head? := by
  cases l with
  | nil => exact absurd rfl h
  | cons a t => rfl

theorem unitInv_miss {json : JsonFlat} {procd : List String} {kk name : String}
    {stored : PyVal} (h : unitInv stored (unitsSeen json procd name))
    (hne : List.lookup (kk ++ "_key") json ≠ some (.str name)) :
    unitInv stored (unitsSeen json (procd ++ [kk]) name) := by
  rw [unitsSeen_append, unitsSeen_single_miss hne, List.append_nil]
  exact h

theorem unitInv_null_elim {stored : PyVal} {l : List PyVal}
    (h : unitInv stored l) (hstr : ∀ u ∈ l, ∃ su, u = PyVal.str su)
    (hnull : stored = .null) : l = [] := by
  cases l with
  | nil => rfl
  | cons a t =>
      exfalso
      obtain ⟨su, rfl⟩ := hstr a (by simp)
      have h1 : PyVal.null = PyVal.str su := by
        rw [← hnull]
        exact h.1
      exact PyVal.noConfusion h1

theorem unitInv_head {stored : PyVal} {l : List PyVal}
    (h : unitInv stored l) (hne : stored ≠ .null) :
    l.head? = some stored := by
  cases l with
  | nil => exact absurd h.1 hne
  | cons a t =>
      rw [h.1]
      rfl

theorem unitInv_append_first {uv : PyVal} :
    unitInv uv ([] ++ [uv]) := by
  refine ⟨rfl, ?_⟩
  intro u hu
  simp at hu
  simp [hu]

theorem unitInv_append_same {stored uv : PyVal} {l : List PyVal}
    (h : unitInv stored l) (hne : stored ≠ .null) (heq : stored = uv) :
    unitInv stored (l ++ [uv]) := by
  have hlne : l ≠ [] := by
    intro h0
    rw [h0] at h
    exact hne h.1
  have hh := unitInv_head h hne
  constructor
  · rw [head?_append_left [uv] hlne, hh]
    rfl
  · intro u hu
    rw [head?_append_left [uv] hlne, hh]
    rcases List.mem_append.mp hu with h1 | h1
    · have := h.2 u h1
      rw [hh] at this
      exact this
    · rcases List.mem_singleton.mp h1 with rfl
      rw [heq]

theorem unitInv_append_break {stored uv : PyVal} {l : List PyVal}
    (h : unitInv stored l) (hne : stored ≠ .null) (hneq : stored ≠ uv) :
    ¬ constUnits (l ++ [uv]) := by
  intro hc
  have hlne : l ≠ [] := by
    intro h0
    rw [h0] at h
    exact hne h.1
  have hh := unitInv_head h hne
  have := hc uv (by simp)
  rw [head?_append_left [uv] hlne, hh] at this
  exact hneq (Option.some.inj this)

theorem notConst_append {l m : List PyVal} (h : ¬ constUnits l) :
    ¬ constUnits (l ++ m) := by
  intro hc
  apply h
  intro u hu
  have hlne : l ≠ [] := by
    intro h0
    rw [h0] at hu
    cases hu
  have := hc u (List.mem_append.mpr (Or.inl hu))
  rwa [head?_append_left m hlne] at this

theorem appendVar_spec (json : JsonFlat) (kk : String) (series : List PyVal)
    (unit : PyVal) {v0 : PyVal} {su : String}
    (hv : List.lookup (kk ++ "_value") json = some v0)
    (hu : List.lookup (kk ++ "_units") json = some (.str su)) :
    (unit = .null ∧ appendVar json kk series unit =
      .ok (series ++ [v0], .str su)) ∨
    (unit ≠ .null ∧ unit = .str su ∧ appendVar json kk series unit =
      .ok (series ++ [v0], unit)) ∨
    (unit ≠ .null ∧ unit ≠ .str su ∧ appendVar json kk series unit =
      .error (.unitChanged unit (.str su))) := by
  by_cases h1 : unit = .null
  · exact Or.inl ⟨h1, by simp [appendVar, hv, hu, h1]⟩
  · by_cases h2 : unit = .str su
    · exact Or.inr (Or.inl ⟨h1, h2, by simp [appendVar, hv, hu, h1, h2]⟩)
    · exact Or.inr (Or.inr ⟨h1, h2, by simp [appendVar, hv, hu, h1, h2]⟩)

theorem ScanInv_unchanged {json : JsonFlat} {procd : List String} {kk : String}
    {st st2 : ScanState} {kvv : PyVal}
    (hkv : List.lookup (kk ++ "_key") json = some kvv)
    (hnm : ∀ name ∈ trackedNames, kvv ≠ PyVal.str name)
    (hp : st2.s.pressure_unit = st.s.pressure_unit)
    (hws : st2.s.windspeed_unit = st.s.windspeed_unit)
    (hwd : st2.s.winddirection_unit = st.s.winddirection_unit)
    (hg : st2.s.gpm_unit = st.s.gpm_unit)
    (ht : st2.s.temperature_unit = st.s.temperature_unit)
    (hd : st2.s.dewpoint_unit = st.s.dewpoint_unit)
    (hdla : st2.s.displacement_lat_unit = st.s.displacement_lat_unit)
    (hdlo : st2.s.displacement_lon_unit = st.s.displacement_lon_unit)
    (htu : st2.s.time_unit = st.s.time_unit)
    (hinv : ScanInv json procd st) : ScanInv json (procd ++ [kk]) st2 := by
  obtain ⟨i1, i2, i3, i4, i5, i6, i7, i8, i9⟩ := hinv
  have mk : ∀ name, name ∈ trackedNames →
      List.lookup (kk ++ "_key") json ≠ some (PyVal.str name) := by
    intro name hn heq
    rw [hkv] at heq
    exact hnm name hn (Option.some.inj heq)
  refine ⟨?_, ?_, ?_, ?_, ?_, ?_, ?_, ?_, ?_⟩
  · rw [hp]; exact unitInv_miss i1 (mk "pressure" (by decide))
  · rw [hws]; exact unitInv_miss i2 (mk "windSpeed" (by decide))
  · rw [hwd]; exact unitInv_miss i3 (mk "windDirection" (by decide))
  · rw [hg]
    exact unitInv_miss i4 (mk "nonCoordinateGeopotentialHeight" (by decide))
  · rw [ht]; exact unitInv_miss i5 (mk "airTemperature" (by decide))
  · rw [hd]; exact unitInv_miss i6 (mk "dewpointTemperature" (by decide))
  · rw [hdla]; exact unitInv_miss i7 (mk "latitudeDisplacement" (by decide))
  · rw [hdlo]; exact unitInv_miss i8 (mk "longitudeDisplacement" (by decide))
  · rw [htu]; exact unitInv_miss i9 (mk "timePeriod" (by decide))

theorem stepKey_dichotomy (json : JsonFlat) (kk : String) (st : ScanState)
    (procd : List String)
    (hwfk : (List.lookup (kk ++ "_key") json).isSome = true ∧
      (List.lookup (kk ++ "_value") json).isSome = true ∧
      isStrOpt (List.lookup (kk ++ "_units") json) = true)
    (hwfp : WFkeys json procd)
    (hinv : ScanInv json procd st) :
    (∃ st2, stepKey json kk st = .ok st2 ∧ ScanInv json (procd ++ [kk]) st2) ∨
    (∃ u1 u2, stepKey json kk st = .error (.unitChanged u1 u2) ∧
      ∃ name ∈ trackedNames, ¬ constUnits (unitsSeen json (procd ++ [kk]) name)) := by
  obtain ⟨hk, hv, hu⟩ := hwfk
  obtain ⟨kv, hkv⟩ := Option.isSome_iff_exists.mp hk
  obtain ⟨v0, hv0⟩ := Option.isSome_iff_exists.mp hv
  obtain ⟨su, hsu⟩ : ∃ su, List.lookup (kk ++ "_units") json =
      some (PyVal.str su) := by
    cases hq : List.lookup (kk ++ "_units") json with
    | none => rw [hq] at hu; simp [isStrOpt] at hu
    | some u0 =>
        cases u0 with
        | str s => exact ⟨s, rfl⟩
        | num q => rw [hq] at hu; simp [isStrOpt] at hu
        | null => rw [hq] at hu; simp [isStrOpt] at hu
        | nan => rw [hq] at hu; simp [isStrOpt] at hu
  obtain ⟨i1, i2, i3, i4, i5, i6, i7, i8, i9⟩ := hinv
  by_cases hb1 : kv = .str "latitude"
  · subst hb1
    left
    refine ⟨{ st with s := { st.s with station_lat := v0 } },
      by simp [stepKey, hkv, hv0], ?_⟩
    exact ScanInv_unchanged hkv (by decide) rfl rfl rfl rfl rfl rfl rfl
      rfl rfl ⟨i1, i2, i3, i4, i5, i6, i7, i8, i9⟩
  by_cases hb2 : kv = .str "longitude"
  · subst hb2
    left
    refine ⟨{ st with s := { st.s with station_lon := v0 } },
      by simp [stepKey, hkv, hv0], ?_⟩
    exact ScanInv_unchanged hkv (by decide) rfl rfl rfl rfl rfl rfl rfl
      rfl rfl ⟨i1, i2, i3, i4, i5, i6, i7, i8, i9⟩
  by_cases hb3 : kv = .str "pressure"
  · subst hb3
    rcases appendVar_spec json kk st.s.pressure st.s.pressure_unit hv0 hsu with
      ⟨hnull, happ⟩ | ⟨hnn, hequ, happ⟩ | ⟨hnn, hneq, happ⟩
    · left
      refine ⟨{ st with s := { st.s with
          pressure := st.s.pressure ++ [v0]
          pressure_unit := .str su } },
        by simp [stepKey, hkv, happ], ?_⟩
      refine ⟨?_, ?_, ?_, ?_, ?_, ?_, ?_, ?_, ?_⟩
      · rw [unitsSeen_append, unitsSeen_single_hit hkv hsu,
          unitInv_null_elim i1 (unitsSeen_str hwfp _) hnull]
        exact unitInv_append_first
      · exact unitInv_miss i2 (by rw [hkv]; simp)
      · exact unitInv_miss i3 (by rw [hkv]; simp)
      · exact unitInv_miss i4 (by rw [hkv]; simp)
      · exact unitInv_miss i5 (by rw [hkv]; simp)
      · exact unitInv_miss i6 (by rw [hkv]; simp)
      · exact unitInv_miss i7 (by rw [hkv]; simp)
      · exact unitInv_miss i8 (by rw [hkv]; simp)
      · exact unitInv_miss i9 (by rw [hkv]; simp)
    · left
      refine ⟨{ st with s := { st.s with
          pressure := st.s.pressure ++ [v0]
          pressure_unit := st.s.pressure_unit } },
        by simp [stepKey, hkv, happ], ?_⟩
      refine ⟨?_, ?_, ?_, ?_, ?_, ?_, ?_, ?_, ?_⟩
      · rw [unitsSeen_append, unitsSeen_single_hit hkv hsu]
        exact unitInv_append_same i1 hnn hequ
      · exact unitInv_miss i2 (by rw [hkv]; simp)
      · exact unitInv_miss i3 (by rw [hkv]; simp)
      · exact unitInv_miss i4 (by rw [hkv]; simp)
      · exact unitInv_miss i5 (by rw [hkv]; simp)
      · exact unitInv_miss i6 (by rw [hkv]; simp)
      · exact unitInv_miss i7 (by rw [hkv]; simp)
      · exact unitInv_miss i8 (by rw [hkv]; simp)
      · exact unitInv_miss i9 (by rw [hkv]; simp)
    · right
      refine ⟨st.s.pressure_unit, .str su, by simp [stepKey, hkv, happ],
        "pressure", by decide, ?_⟩
      rw [unitsSeen_append, unitsSeen_single_hit hkv hsu]
      exact unitInv_append_break i1 hnn hneq
  by_cases hb4 : kv = .str "windSpeed"
  · subst hb4
    rcases appendVar_spec json kk st.s.windspeed st.s.windspeed_unit hv0 hsu with
      ⟨hnull, happ⟩ | ⟨hnn, hequ, happ⟩ | ⟨hnn, hneq, happ⟩
    · left
      refine ⟨{ st with s := { st.s with
          windspeed := st.s.windspeed ++ [v0]
          windspeed_unit := .str su } },
        by simp [stepKey, hkv, happ], ?_⟩
      refine ⟨?_, ?_, ?_, ?_, ?_, ?_, ?_, ?_, ?_⟩
      · exact unitInv_miss i1 (by rw [hkv]; simp)
      · rw [unitsSeen_append, unitsSeen_single_hit hkv hsu,
          unitInv_null_elim i2 (unitsSeen_str hwfp _) hnull]
        exact unitInv_append_first
      · exact unitInv_miss i3 (by rw [hkv]; simp)
      · exact unitInv_miss i4 (by rw [hkv]; simp)
      · exact unitInv_miss i5 (by rw [hkv]; simp)
      · exact unitInv_miss i6 (by rw [hkv]; simp)
      · exact unitInv_miss i7 (by rw [hkv]; simp)
      · exact unitInv_miss i8 (by rw [hkv]; simp)
      · exact unitInv_miss i9 (by rw [hkv]; simp)
    · left
      refine ⟨{ st with s := { st.s with
          windspeed := st.s.windspeed ++ [v0]
          windspeed_unit := st.s.windspeed_unit } },
        by simp [stepKey, hkv, happ], ?_⟩
      refine ⟨?_, ?_, ?_, ?_, ?_, ?_, ?_, ?_, ?_⟩
      · exact unitInv_miss i1 (by rw [hkv]; simp)
      · rw [unitsSeen_append, unitsSeen_single_hit hkv hsu]
        exact unitInv_append_same i2 hnn hequ
      · exact unitInv_miss i3 (by rw [hkv]; simp)
      · exact unitInv_miss i4 (by rw [hkv]; simp)
      · exact unitInv_miss i5 (by rw [hkv]; simp)
      · exact unitInv_miss i6 (by rw [hkv]; simp)
      · exact unitInv_miss i7 (by rw [hkv]; simp)
      · exact unitInv_miss i8 (by rw [hkv]; simp)
      · exact unitInv_miss i9 (by rw [hkv]; simp)
    · right
      refine ⟨st.s.windspeed_unit, .str su, by simp [stepKey, hkv, happ],
        "windSpeed", by decide, ?_⟩
      rw [unitsSeen_append, unitsSeen_single_hit hkv hsu]
      exact unitInv_append_break i2 hnn hneq
  by_cases hb5 : kv = .str "windDirection"
  · subst hb5
    rcases appendVar_spec json kk st.s.winddirection st.s.winddirection_unit hv0 hsu with
      ⟨hnull, happ⟩ | ⟨hnn, hequ, happ⟩ | ⟨hnn, hneq, happ⟩
    · left
      refine ⟨{ st with s := { st.s with
          winddirection := st.s.winddirection ++ [v0]
          winddirection_unit := .str su } },
        by simp [stepKey, hkv, happ], ?_⟩
      refine ⟨?_, ?_, ?_, ?_, ?_, ?_, ?_, ?_, ?_⟩
      · exact unitInv_miss i1 (by rw [hkv]; simp)
      · exact unitInv_miss i2 (by rw [hkv]; simp)
      · rw [unitsSeen_append, unitsSeen_single_hit hkv hsu,
          unitInv_null_elim i3 (unitsSeen_str hwfp _) hnull]
        exact unitInv_append_first
      · exact unitInv_miss i4 (by rw [hkv]; simp)
      · exact unitInv_miss i5 (by rw [hkv]; simp)
      · exact unitInv_miss i6 (by rw [hkv]; simp)
      · exact unitInv_miss i7 (by rw [hkv]; simp)
      · exact unitInv_miss i8 (by rw [hkv]; simp)
      · exact unitInv_miss i9 (by rw [hkv]; simp)
    · left
      refine ⟨{ st with s := { st.s with
          winddirection := st.s.winddirection ++ [v0]
          winddirection_unit := st.s.winddirection_unit } },
        by simp [stepKey, hkv, happ], ?_⟩
      refine ⟨?_, ?_, ?_, ?_, ?_, ?_, ?_, ?_, ?_⟩
      · exact unitInv_miss i1 (by rw [hkv]; simp)
      · exact unitInv_miss i2 (by rw [hkv]; simp)
      · rw [unitsSeen_append, unitsSeen_single_hit hkv hsu]
        exact unitInv_append_same i3 hnn hequ
      · exact unitInv_miss i4 (by rw [hkv]; simp)
      · exact unitInv_miss i5 (by rw [hkv]; simp)
      · exact unitInv_miss i6 (by rw [hkv]; simp)
      · exact unitInv_miss i7 (by rw [hkv]; simp)
      · exact unitInv_miss i8 (by rw [hkv]; simp)
      · exact unitInv_miss i9 (by rw [hkv]; simp)
    · right
      refine ⟨st.s.winddirection_unit, .str su, by simp [stepKey, hkv, happ],
        "windDirection", by decide, ?_⟩
      rw [unitsSeen_append, unitsSeen_single_hit hkv hsu]
      exact unitInv_append_break i3 hnn hneq
  by_cases hb6 : kv = .str "nonCoordinateGeopotentialHeight"
  · subst hb6
    rcases appendVar_spec json kk st.s.gpm st.s.gpm_unit hv0 hsu with
      ⟨hnull, happ⟩ | ⟨hnn, hequ, happ⟩ | ⟨hnn, hneq, happ⟩
    · left
      refine ⟨{ st with s := { st.s with
          gpm := st.s.gpm ++ [v0]
          gpm_unit := .str su } },
        by simp [stepKey, hkv, happ], ?_⟩
      refine ⟨?_, ?_, ?_, ?_, ?_, ?_, ?_, ?_, ?_⟩
      · exact unitInv_miss i1 (by rw [hkv]; simp)
      · exact unitInv_miss i2 (by rw [hkv]; simp)
      · exact unitInv_miss i3 (by rw [hkv]; simp)
      · rw [unitsSeen_append, unitsSeen_single_hit hkv hsu,
          unitInv_null_elim i4 (unitsSeen_str hwfp _) hnull]
        exact unitInv_append_first
      · exact unitInv_miss i5 (by rw [hkv]; simp)
      · exact unitInv_miss i6 (by rw [hkv]; simp)
      · exact unitInv_miss i7 (by rw [hkv]; simp)
      · exact unitInv_miss i8 (by rw [hkv]; simp)
      · exact unitInv_miss i9 (by rw [hkv]; simp)
    · left
      refine ⟨{ st with s := { st.s with
          gpm := st.s.gpm ++ [v0]
          gpm_unit := st.s.gpm_unit } },
        by simp [stepKey, hkv, happ], ?_⟩
      refine ⟨?_, ?_, ?_, ?_, ?_, ?_, ?_, ?_, ?_⟩
      · exact unitInv_miss i1 (by rw [hkv]; simp)
      · exact unitInv_miss i2 (by rw [hkv]; simp)
      · exact unitInv_miss i3 (by rw [hkv]; simp)
      · rw [unitsSeen_append, unitsSeen_single_hit hkv hsu]
        exact unitInv_append_same i4 hnn hequ
      · exact unitInv_miss i5 (by rw [hkv]; simp)
      · exact unitInv_miss i6 (by rw [hkv]; simp)
      · exact unitInv_miss i7 (by rw [hkv]; simp)
      · exact unitInv_miss i8 (by rw [hkv]; simp)
      · exact unitInv_miss i9 (by rw [hkv]; simp)
    · right
      refine ⟨st.s.gpm_unit, .str su, by simp [stepKey, hkv, happ],
        "nonCoordinateGeopotentialHeight", by decide, ?_⟩
      rw [unitsSeen_append, unitsSeen_single_hit hkv hsu]
      exact unitInv_append_break i4 hnn hneq
  by_cases hb7 : kv = .str "airTemperature"
  · subst hb7
    rcases appendVar_spec json kk st.s.temperature st.s.temperature_unit hv0 hsu with
      ⟨hnull, happ⟩ | ⟨hnn, hequ, happ⟩ | ⟨hnn, hneq, happ⟩
    · left
      refine ⟨{ st with s := { st.s with
          temperature := st.s.temperature ++ [v0]
          temperature_unit := .str su } },
        by simp [stepKey, hkv, happ], ?_⟩
      refine ⟨?_, ?_, ?_, ?_, ?_, ?_, ?_, ?_, ?_⟩
      · exact unitInv_miss i1 (by rw [hkv]; simp)
      · exact unitInv_miss i2 (by rw [hkv]; simp)
      · exact unitInv_miss i3 (by rw [hkv]; simp)
      · exact unitInv_miss i4 (by rw [hkv]; simp)
      · rw [unitsSeen_append, unitsSeen_single_hit hkv hsu,
          unitInv_null_elim i5 (unitsSeen_str hwfp _) hnull]
        exact unitInv_append_first
      · exact unitInv_miss i6 (by rw [hkv]; simp)
      · exact unitInv_miss i7 (by rw [hkv]; simp)
      · exact unitInv_miss i8 (by rw [hkv]; simp)
      · exact unitInv_miss i9 (by rw [hkv]; simp)
    · left
      refine ⟨{ st with s := { st.s with
          temperature := st.s.temperature ++ [v0]
          temperature_unit := st.s.temperature_unit } },
        by simp [stepKey, hkv, happ], ?_⟩
      refine ⟨?_, ?_, ?_, ?_, ?_, ?_, ?_, ?_, ?_⟩
      · exact unitInv_miss i1 (by rw [hkv]; simp)
      · exact unitInv_miss i2 (by rw [hkv]; simp)
      · exact unitInv_miss i3 (by rw [hkv]; simp)
      · exact unitInv_miss i4 (by rw [hkv]; simp)
      · rw [unitsSeen_append, unitsSeen_single_hit hkv hsu]
        exact unitInv_append_same i5 hnn hequ
      · exact unitInv_miss i6 (by rw [hkv]; simp)
      · exact unitInv_miss i7 (by rw [hkv]; simp)
      · exact unitInv_miss i8 (by rw [hkv]; simp)
      · exact unitInv_miss i9 (by rw [hkv]; simp)
    · right
      refine ⟨st.s.temperature_unit, .str su, by simp [stepKey, hkv, happ],
        "airTemperature", by decide, ?_⟩
      rw [unitsSeen_append, unitsSeen_single_hit hkv hsu]
      exact unitInv_append_break i5 hnn hneq
  by_cases hb8 : kv = .str "dewpointTemperature"
  · subst hb8
    rcases appendVar_spec json kk st.s.dewpoint st.s.dewpoint_unit hv0 hsu with
      ⟨hnull, happ⟩ | ⟨hnn, hequ, happ⟩ | ⟨hnn, hneq, happ⟩
    · left
      refine ⟨{ st with s := { st.s with
          dewpoint := st.s.dewpoint ++ [v0]
          dewpoint_unit := .str su } },
        by simp [stepKey, hkv, happ], ?_⟩
      refine ⟨?_, ?_, ?_, ?_, ?_, ?_, ?_, ?_, ?_⟩
      · exact unitInv_miss i1 (by rw [hkv]; simp)
      · exact unitInv_miss i2 (by rw [hkv]; simp)
      · exact unitInv_miss i3 (by rw [hkv]; simp)
      · exact unitInv_miss i4 (by rw [hkv]; simp)
      · exact unitInv_miss i5 (by rw [hkv]; simp)
      · rw [unitsSeen_append, unitsSeen_single_hit hkv hsu,
          unitInv_null_elim i6 (unitsSeen_str hwfp _) hnull]
        exact unitInv_append_first
      · exact unitInv_miss i7 (by rw [hkv]; simp)
      · exact unitInv_miss i8 (by rw [hkv]; simp)
      · exact unitInv_miss i9 (by rw [hkv]; simp)
    · left
      refine ⟨{ st with s := { st.s with
          dewpoint := st.s.dewpoint ++ [v0]
          dewpoint_unit := st.s.dewpoint_unit } },
        by simp [stepKey, hkv, happ], ?_⟩
      refine ⟨?_, ?_, ?_, ?_, ?_, ?_, ?_, ?_, ?_⟩
      · exact unitInv_miss i1 (by rw [hkv]; simp)
      · exact unitInv_miss i2 (by rw [hkv]; simp)
      · exact unitInv_miss i3 (by rw [hkv]; simp)
      · exact unitInv_miss i4 (by rw [hkv]; simp)
      · exact unitInv_miss i5 (by rw [hkv]; simp)
      · rw [unitsSeen_append, unitsSeen_single_hit hkv hsu]
        exact unitInv_append_same i6 hnn hequ
      · exact unitInv_miss i7 (by rw [hkv]; simp)
      · exact unitInv_miss i8 (by rw [hkv]; simp)
      · exact unitInv_miss i9 (by rw [hkv]; simp)
    · right
      refine ⟨st.s.dewpoint_unit, .str su, by simp [stepKey, hkv, happ],
        "dewpointTemperature", by decide, ?_⟩
      rw [unitsSeen_append, unitsSeen_single_hit hkv hsu]
      exact unitInv_append_break i6 hnn hneq
  by_cases hb9 : kv = .str "latitudeDisplacement"
  · subst hb9
    rcases appendVar_spec json kk st.s.displacement_lat st.s.displacement_lat_unit hv0 hsu with
      ⟨hnull, happ⟩ | ⟨hnn, hequ, happ⟩ | ⟨hnn, hneq, happ⟩
    · left
      refine ⟨{ st with s := { st.s with
          displacement_lat := st.s.displacement_lat ++ [v0]
          displacement_lat_unit := .str su } },
        by simp [stepKey, hkv, happ], ?_⟩
      refine ⟨?_, ?_, ?_, ?_, ?_, ?_, ?_, ?_, ?_⟩
      · exact unitInv_miss i1 (by rw [hkv]; simp)
      · exact unitInv_miss i2 (by rw [hkv]; simp)
      · exact unitInv_miss i3 (by rw [hkv]; simp)
      · exact unitInv_miss i4 (by rw [hkv]; simp)
      · exact unitInv_miss i5 (by rw [hkv]; simp)
      · exact unitInv_miss i6 (by rw [hkv]; simp)
      · rw [unitsSeen_append, unitsSeen_single_hit hkv hsu,
          unitInv_null_elim i7 (unitsSeen_str hwfp _) hnull]
        exact unitInv_append_first
      · exact unitInv_miss i8 (by rw [hkv]; simp)
      · exact unitInv_miss i9 (by rw [hkv]; simp)
    · left
      refine ⟨{ st with s := { st.s with
          displacement_lat := st.s.displacement_lat ++ [v0]
          displacement_lat_unit := st.s.displacement_lat_unit } },
        by simp [stepKey, hkv, happ], ?_⟩
      refine ⟨?_, ?_, ?_, ?_, ?_, ?_, ?_, ?_, ?_⟩
      · exact unitInv_miss i1 (by rw [hkv]; simp)
      · exact unitInv_miss i2 (by rw [hkv]; simp)
      · exact unitInv_miss i3 (by rw [hkv]; simp)
      · exact unitInv_miss i4 (by rw [hkv]; simp)
      · exact unitInv_miss i5 (by rw [hkv]; simp)
      · exact unitInv_miss i6 (by rw [hkv]; simp)
      · rw [unitsSeen_append, unitsSeen_single_hit hkv hsu]
        exact unitInv_append_same i7 hnn hequ
      · exact unitInv_miss i8 (by rw [hkv]; simp)
      · exact unitInv_miss i9 (by rw [hkv]; simp)
    · right
      refine ⟨st.s.displacement_lat_unit, .str su, by simp [stepKey, hkv, happ],
        "latitudeDisplacement", by decide, ?_⟩
      rw [unitsSeen_append, unitsSeen_single_hit hkv hsu]
      exact unitInv_append_break i7 hnn hneq
  by_cases hb10 : kv = .str "longitudeDisplacement"
  · subst hb10
    rcases appendVar_spec json kk st.s.displacement_lon st.s.displacement_lon_unit hv0 hsu with
      ⟨hnull, happ⟩ | ⟨hnn, hequ, happ⟩ | ⟨hnn, hneq, happ⟩
    · left
      refine ⟨{ st with s := { st.s with
          displacement_lon := st.s.displacement_lon ++ [v0]
          displacement_lon_unit := .str su } },
        by simp [stepKey, hkv, happ], ?_⟩
      refine ⟨?_, ?_, ?_, ?_, ?_, ?_, ?_, ?_, ?_⟩
      · exact unitInv_miss i1 (by rw [hkv]; simp)
      · exact unitInv_miss i2 (by rw [hkv]; simp)
      · exact unitInv_miss i3 (by rw [hkv]; simp)
      · exact unitInv_miss i4 (by rw [hkv]; simp)
      · exact unitInv_miss i5 (by rw [hkv]; simp)
      · exact unitInv_miss i6 (by rw [hkv]; simp)
      · exact unitInv_miss i7 (by rw [hkv]; simp)
      · rw [unitsSeen_append, unitsSeen_single_hit hkv hsu,
          unitInv_null_elim i8 (unitsSeen_str hwfp _) hnull]
        exact unitInv_append_first
      · exact unitInv_miss i9 (by rw [hkv]; simp)
    · left
      refine ⟨{ st with s := { st.s with
          displacement_lon := st.s.displacement_lon ++ [v0]
          displacement_lon_unit := st.s.displacement_lon_unit } },
        by simp [stepKey, hkv, happ], ?_⟩
      refine ⟨?_, ?_, ?_, ?_, ?_, ?_, ?_, ?_, ?_⟩
      · exact unitInv_miss i1 (by rw [hkv]; simp)
      · exact unitInv_miss i2 (by rw [hkv]; simp)
      · exact unitInv_miss i3 (by rw [hkv]; simp)
      · exact unitInv_miss i4 (by rw [hkv]; simp)
      · exact unitInv_miss i5 (by rw [hkv]; simp)
      · exact unitInv_miss i6 (by rw [hkv]; simp)
      · exact unitInv_miss i7 (by rw [hkv]; simp)
      · rw [unitsSeen_append, unitsSeen_single_hit hkv hsu]
        exact unitInv_append_same i8 hnn hequ
      · exact unitInv_miss i9 (by rw [hkv]; simp)
    · right
      refine ⟨st.s.displacement_lon_unit, .str su, by simp [stepKey, hkv, happ],
        "longitudeDisplacement", by decide, ?_⟩
      rw [unitsSeen_append, unitsSeen_single_hit hkv hsu]
      exact unitInv_append_break i8 hnn hneq
  by_cases hb11 : kv = .str "timePeriod"
  · subst hb11
    rcases appendVar_spec json kk st.s.time st.s.time_unit hv0 hsu with
      ⟨hnull, happ⟩ | ⟨hnn, hequ, happ⟩ | ⟨hnn, hneq, happ⟩
    · left
      refine ⟨{ st with s := { _ensure_measurement_integrity st.s with
          time := st.s.time ++ [v0]
          time_unit := .str su } },
        by simp [stepKey, hkv, happ, _ensure_measurement_integrity], ?_⟩
      refine ⟨?_, ?_, ?_, ?_, ?_, ?_, ?_, ?_, ?_⟩
      · exact unitInv_miss i1 (by rw [hkv]; simp)
      · exact unitInv_miss i2 (by rw [hkv]; simp)
      · exact unitInv_miss i3 (by rw [hkv]; simp)
      · exact unitInv_miss i4 (by rw [hkv]; simp)
      · exact unitInv_miss i5 (by rw [hkv]; simp)
      · exact unitInv_miss i6 (by rw [hkv]; simp)
      · exact unitInv_miss i7 (by rw [hkv]; simp)
      · exact unitInv_miss i8 (by rw [hkv]; simp)
      · rw [unitsSeen_append, unitsSeen_single_hit hkv hsu,
          unitInv_null_elim i9 (unitsSeen_str hwfp _) hnull]
        exact unitInv_append_first
    · left
      refine ⟨{ st with s := { _ensure_measurement_integrity st.s with
          time := st.s.time ++ [v0]
          time_unit := st.s.time_unit } },
        by simp [stepKey, hkv, happ, _ensure_measurement_integrity], ?_⟩
      refine ⟨?_, ?_, ?_, ?_, ?_, ?_, ?_, ?_, ?_⟩
      · exact unitInv_miss i1 (by rw [hkv]; simp)
      · exact unitInv_miss i2 (by rw [hkv]; simp)
      · exact unitInv_miss i3 (by rw [hkv]; simp)
      · exact unitInv_miss i4 (by rw [hkv]; simp)
      · exact unitInv_miss i5 (by rw [hkv]; simp)
      · exact unitInv_miss i6 (by rw [hkv]; simp)
      · exact unitInv_miss i7 (by rw [hkv]; simp)
      · exact unitInv_miss i8 (by rw [hkv]; simp)
      · rw [unitsSeen_append, unitsSeen_single_hit hkv hsu]
        exact unitInv_append_same i9 hnn hequ
    · right
      refine ⟨st.s.time_unit, .str su,
        by simp [stepKey, hkv, happ, _ensure_measurement_integrity],
        "timePeriod", by decide, ?_⟩
      rw [unitsSeen_append, unitsSeen_single_hit hkv hsu]
      exact unitInv_append_break i9 hnn hneq
  by_cases hb12 : kv = .str "year"
  · subst hb12
    left
    refine ⟨{ st with year := some v0 },
      by simp [stepKey, hkv, hv0], ?_⟩
    exact ScanInv_unchanged hkv (by decide) rfl rfl rfl rfl rfl rfl rfl
      rfl rfl ⟨i1, i2, i3, i4, i5, i6, i7, i8, i9⟩
  by_cases hb13 : kv = .str "month"
  · subst hb13
    left
    refine ⟨{ st with month := some v0 },
      by simp [stepKey, hkv, hv0], ?_⟩
    exact ScanInv_unchanged hkv (by decide) rfl rfl rfl rfl rfl rfl rfl
      rfl rfl ⟨i1, i2, i3, i4, i5, i6, i7, i8, i9⟩
  by_cases hb14 : kv = .str "day"
  · subst hb14
    left
    refine ⟨{ st with day := some v0 },
      by simp [stepKey, hkv, hv0], ?_⟩
    exact ScanInv_unchanged hkv (by decide) rfl rfl rfl rfl rfl rfl rfl
      rfl rfl ⟨i1, i2, i3, i4, i5, i6, i7, i8, i9⟩
  by_cases hb15 : kv = .str "hour"
  · subst hb15
    left
    refine ⟨{ st with hour := some v0 },
      by simp [stepKey, hkv, hv0], ?_⟩
    exact ScanInv_unchanged hkv (by decide) rfl rfl rfl rfl rfl rfl rfl
      rfl rfl ⟨i1, i2, i3, i4, i5, i6, i7, i8, i9⟩
  by_cases hb16 : kv = .str "minute"
  · subst hb16
    left
    refine ⟨{ st with minute := some v0 },
      by simp [stepKey, hkv, hv0], ?_⟩
    exact ScanInv_unchanged hkv (by decide) rfl rfl rfl rfl rfl rfl rfl
      rfl rfl ⟨i1, i2, i3, i4, i5, i6, i7, i8, i9⟩
  by_cases hb17 : kv = .str "second"
  · subst hb17
    left
    refine ⟨{ st with second := some v0 },
      by simp [stepKey, hkv, hv0], ?_⟩
    exact ScanInv_unchanged hkv (by decide) rfl rfl rfl rfl rfl rfl rfl
      rfl rfl ⟨i1, i2, i3, i4, i5, i6, i7, i8, i9⟩
  by_cases hb18 : kv = .str "radiosondeSerialNumber"
  · subst hb18
    left
    refine ⟨{ st with s := { st.s with meta_data := dictInsert st.s.meta_data "sonde_serial_number" v0 } },
      by simp [stepKey, hkv, hv0], ?_⟩
    exact ScanInv_unchanged hkv (by decide) rfl rfl rfl rfl rfl rfl rfl
      rfl rfl ⟨i1, i2, i3, i4, i5, i6, i7, i8, i9⟩
  by_cases hb19 : kv = .str "softwareVersionNumber"
  · subst hb19
    left
    refine ⟨{ st with s := { st.s with meta_data := dictInsert st.s.meta_data "softwareVersionNumber" v0 } },
      by simp [stepKey, hkv, hv0], ?_⟩
    exact ScanInv_unchanged hkv (by decide) rfl rfl rfl rfl rfl rfl rfl
      rfl rfl ⟨i1, i2, i3, i4, i5, i6, i7, i8, i9⟩
  by_cases hb20 : kv = .str "radiosondeType"
  · subst hb20
    left
    refine ⟨{ st with s := { st.s with meta_data := dictInsert st.s.meta_data "radiosondeType" v0 } },
      by simp [stepKey, hkv, hv0], ?_⟩
    exact ScanInv_unchanged hkv (by decide) rfl rfl rfl rfl rfl rfl rfl
      rfl rfl ⟨i1, i2, i3, i4, i5, i6, i7, i8, i9⟩
  by_cases hb21 : kv = .str "unexpandedDescriptors"
  · subst hb21
    left
    refine ⟨{ st with s := { st.s with meta_data := dictInsert st.s.meta_data "bufr_msg" v0 } },
      by simp [stepKey, hkv, hv0], ?_⟩
    exact ScanInv_unchanged hkv (by decide) rfl rfl rfl rfl rfl rfl rfl
      rfl rfl ⟨i1, i2, i3, i4, i5, i6, i7, i8, i9⟩
  by_cases hb22 : kv = .str "radiosondeOperatingFrequency"
  · subst hb22
    left
    refine ⟨{ st with s := { st.s with meta_data := dictInsert st.s.meta_data "sonde_frequency" (.str (pyStr v0 ++ su)) } },
      by simp [stepKey, hkv, hv0, hsu], ?_⟩
    exact ScanInv_unchanged hkv (by decide) rfl rfl rfl rfl rfl rfl rfl
      rfl rfl ⟨i1, i2, i3, i4, i5, i6, i7, i8, i9⟩
  left
  refine ⟨st, by simp [stepKey, hkv, hb1, hb2, hb3, hb4, hb5, hb6, hb7, hb8, hb9, hb10, hb11, hb12, hb13, hb14, hb15, hb16, hb17, hb18, hb19, hb20, hb21, hb22], ?_⟩
  refine ScanInv_unchanged hkv ?_ rfl rfl rfl rfl rfl rfl rfl rfl rfl
    ⟨i1, i2, i3, i4, i5, i6, i7, i8, i9⟩
  intro name hn
  simp only [trackedNames, List.mem_cons, List.not_mem_nil, or_false] at hn
  rcases hn with rfl | rfl | rfl | rfl | rfl | rfl | rfl | rfl | rfl
  · exact hb3
  · exact hb4
  · exact hb5
  · exact hb6
  · exact hb7
  · exact hb8
  · exact hb9
  · exact hb10
  · exact hb11

theorem scanKeys_dichotomy (json : JsonFlat) :
    ∀ (kks procd : List String) (st : ScanState),
    WFkeys json procd → WFkeys json kks → ScanInv json procd st →
    (∃ st2, scanKeys json kks st = .ok st2 ∧
      ScanInv json (procd ++ kks) st2) ∨
    (∃ u1 u2, scanKeys json kks st = .error (.unitChanged u1 u2) ∧
      ∃ name ∈ trackedNames,
        ¬ constUnits (unitsSeen json (procd ++ kks) name)) := by
  intro kks
  induction kks with
  | nil =>
      intro procd st _ _ hinv
      exact Or.inl ⟨st, rfl, by simpa using hinv⟩
  | cons kk rest ih =>
      intro procd st hwfp hwfk hinv
      have hsplit : procd ++ kk :: rest = (procd ++ [kk]) ++ rest := by simp
      rcases stepKey_dichotomy json kk st procd (hwfk kk (by simp)) hwfp hinv
        with ⟨st2, hstep, hinv2⟩ | ⟨u1, u2, hstep, name, hmem, hnc⟩
      · have hwfp2 : WFkeys json (procd ++ [kk]) := by
          intro k hk
          rcases List.mem_append.mp hk with h | h
          · exact hwfp k h
          · rcases List.mem_singleton.mp h with rfl
            exact hwfk k (by simp)
        rcases ih (procd ++ [kk]) st2 hwfp2
            (fun k hk => hwfk k (by simp [hk])) hinv2 with
          ⟨st3, hscan, hinv3⟩ | ⟨u1, u2, hscan, name, hmem, hnc⟩
        · left
          refine ⟨st3, ?_, ?_⟩
          · simp [scanKeys, hstep, hscan]
          · rw [hsplit]
            exact hinv3
        · right
          refine ⟨u1, u2, by simp [scanKeys, hstep, hscan], name, hmem, ?_⟩
          rw [hsplit]
          exact hnc
      · right
        refine ⟨u1, u2, by simp [scanKeys, hstep], name, hmem, ?_⟩
        rw [hsplit, unitsSeen_append]
        exact notConst_append hnc

/-- Claim C5: for every well-formed flattened input (each candidate
key has its _key, _value and string _units entries),
convert_json_to_arrays raises UnitChangedError if and only if some
tracked variable occurs with a recorded unit string and later occurs
again with a different one; when every variable's unit history is
constant, no UnitChangedError is raised. -/
theorem claim_C5_unit_change_iff (json : JsonFlat) (key_keys : List String)
    (hwf : WFkeys json key_keys) :
    (∃ u1 u2, convert_json_to_arrays json key_keys =
      .error (.unitChanged u1 u2)) ↔
    ∃ name ∈ trackedNames, ¬ constUnits (unitsSeen json key_keys name) := by
  have hinv0 : ScanInv json [] ({} : ScanState) := by
    refine ⟨?_, ?_, ?_, ?_, ?_, ?_, ?_, ?_, ?_⟩ <;>
      exact ⟨rfl, by intro u hu; cases hu⟩
  have hwfnil : WFkeys json [] := by intro k hk; cases hk
  rcases scanKeys_dichotomy json key_keys [] {} hwfnil hwf hinv0 with
    ⟨st2, hscan, hinv2⟩ | ⟨u1, u2, hscan, name, hmem, hnc⟩
  · constructor
    · rintro ⟨u1, u2, heq⟩
      exfalso
      simp only [convert_json_to_arrays, hscan] at heq
      split at heq <;> simp_all
    · rintro ⟨name, hmem, hnc⟩
      exfalso
      have h2 : ScanInv json key_keys st2 := by simpa using hinv2
      obtain ⟨j1, j2, j3, j4, j5, j6, j7, j8, j9⟩ := h2
      apply hnc
      fin_cases hmem
      · exact j1.2
      · exact j2.2
      · exact j3.2
      · exact j4.2
      · exact j5.2
      · exact j6.2
      · exact j7.2
      · exact j8.2
      · exact j9.2
  · constructor
    · intro _
      exact ⟨name, hmem, by simpa using hnc⟩
    · intro _
      refine ⟨u1, u2, ?_⟩
      simp [convert_json_to_arrays, hscan]

/-- Concrete instantiation of claim C5: a variable receiving unit K
and later degC makes convert_json_to_arrays raise UnitChangedError. -/
theorem claim_C5_witness :
    ∃ u1 u2, convert_json_to_arrays c5Json c5Keys =
      .error (.unitChanged u1 u2) :=
  (claim_C5_unit_change_iff c5Json c5Keys (by decide)).mpr (by decide)
